import Mathlib

/-!
Verification development for the peering-session reconciliation engine of
`peering/models/models.py` (peering-manager).

The Python source is shallowly embedded: Django model rows become Lean
structures, the database becomes lists of rows inside one `DB` structure,
Django `objects.get`/`objects.filter` calls become list filters with the
same raised-exception behaviour (`DoesNotExist` caught where the source
catches it, `MultipleObjectsReturned` propagating as `Except.error`), and
`transaction.atomic` becomes an all-or-nothing interpretation of the
`Except` result.  Device I/O (NAPALM / NetBox) is passed in as data, the
same way the source treats it as an external capability.
-/

/-! ## IP addresses

The source parses and prints addresses with Python's `ipaddress` standard
library (`ipaddress.ip_address(s)` and `str(addr)`).  The functions below
model that library: strict dotted-quad IPv4 (no leading zeros, each octet
at most 255), RFC-4291 textual IPv6 (1-4 case-insensitive hex digits per
group, one optional `::`, optional trailing embedded IPv4), and the
RFC-5952 canonical printer used by `IPv6Address.__str__` (lowercase hex,
first longest run of two or more zero groups compressed).  Zone ids are
not modelled.  Values are plain `Nat`s tagged with the address family. -/

inductive IPAddr where
  | v4 (val : Nat)
  | v6 (val : Nat)
deriving DecidableEq, Repr

def IPAddr.version : IPAddr → Nat
  | .v4 _ => 4
  | .v6 _ => 6

def IPAddr.val : IPAddr → Nat
  | .v4 n => n
  | .v6 n => n

/-- Splits a character list on a separator, like Python's `str.split(sep)`
(always at least one group, empty groups kept). -/
def splitOnChar (sep : Char) : List Char → List (List Char)
  | [] => [[]]
  | c :: cs =>
    match splitOnChar sep cs with
    | [] => [[]]
    | g :: gs => if c = sep then [] :: g :: gs else (c :: g) :: gs

def joinWithChar (sep : Char) : List (List Char) → List Char
  | [] => []
  | [g] => g
  | g :: gs => g ++ sep :: joinWithChar sep gs

def isDecDigit (c : Char) : Bool := '0' ≤ c ∧ c ≤ '9'

def decDigitVal (c : Char) : Nat := c.toNat - '0'.toNat

def hexDigitVal (c : Char) : Option Nat :=
  if '0' ≤ c ∧ c ≤ '9' then some (c.toNat - '0'.toNat)
  else if 'a' ≤ c ∧ c ≤ 'f' then some (c.toNat - 'a'.toNat + 10)
  else if 'A' ≤ c ∧ c ≤ 'F' then some (c.toNat - 'A'.toNat + 10)
  else none

def decValue : List Char → Nat
  | [] => 0
  | c :: cs => decValue cs + decDigitVal c * 10 ^ cs.length

def hexValue : List Char → Option Nat
  | [] => some 0
  | c :: cs =>
    match hexDigitVal c, hexValue cs with
    | some d, some v => some (v + d * 16 ^ cs.length)
    | _, _ => none

/-- `IPv4Address._parse_octet`: 1-3 ASCII decimal digits, no leading zero
on a multi-digit octet, value at most 255. -/
def parseOctet (cs : List Char) : Option Nat :=
  if cs.isEmpty then none
  else if !(cs.all isDecDigit) then none
  else if cs.length > 3 then none
  else if cs.headD ' ' = '0' ∧ cs.length > 1 then none
  else
    let v := decValue cs
    if v > 255 then none else some v

/-- `IPv4Address._ip_int_from_string`: exactly four octets joined by dots. -/
def parseIPv4Chars (cs : List Char) : Option Nat :=
  match splitOnChar '.' cs with
  | [a, b, c, d] =>
    match parseOctet a, parseOctet b, parseOctet c, parseOctet d with
    | some va, some vb, some vc, some vd =>
      some (va * 16777216 + vb * 65536 + vc * 256 + vd)
    | _, _, _, _ => none
  | _ => none

/-- `IPv6Address._parse_hextet`: 1-4 hex digits, case-insensitive. -/
def parseHextet (cs : List Char) : Option Nat :=
  if cs.isEmpty then none
  else if cs.length > 4 then none
  else hexValue cs

def hexDigitChar (n : Nat) : Char :=
  if n < 10 then Char.ofNat (48 + n) else Char.ofNat (87 + n)

/-- Lowercase hex rendering without leading zeros, as Python's `'%x'`.
Fuel-driven so the recursion is structural; 33 digits cover 2^128. -/
def hexCharsAux : Nat → Nat → List Char
  | 0, _ => []
  | fuel + 1, n => if n = 0 then [] else hexCharsAux fuel (n / 16) ++ [hexDigitChar (n % 16)]

def hexChars (n : Nat) : List Char :=
  if n = 0 then ['0'] else hexCharsAux 33 n

def decCharsAux : Nat → Nat → List Char
  | 0, _ => []
  | fuel + 1, n => if n = 0 then [] else decCharsAux fuel (n / 10) ++ [Char.ofNat (48 + n % 10)]

def decChars (n : Nat) : List Char :=
  if n = 0 then ['0'] else decCharsAux 33 n

/-- If the last colon-separated part contains a dot it must be an embedded
IPv4 address; it is replaced by its two 16-bit groups (rendered in hex, as
CPython splices `'%x'`-formatted strings back into the part list). -/
def expandEmbeddedV4 (parts : List (List Char)) : Option (List (List Char)) :=
  match parts.getLast? with
  | none => none
  | some last =>
    if last.contains '.' then
      match parseIPv4Chars last with
      | none => none
      | some v =>
        some (parts.dropLast ++ [hexChars (v / 65536), hexChars (v % 65536)])
    else some parts

/-- Indices of empty groups strictly inside the part list (candidate `::`
positions, as scanned by `IPv6Address._ip_int_from_string`). -/
def interiorEmpties (parts : List (List Char)) : List Nat :=
  (List.range parts.length).filter
    (fun i => decide (0 < i) && decide (i + 1 < parts.length) && decide (parts.getD i [' '] = []))

def foldHextets (l : List (List Char)) : Option Nat :=
  l.foldl
    (fun acc g =>
      match acc, parseHextet g with
      | some a, some h => some (a * 65536 + h)
      | _, _ => none)
    (some 0)

/-- `IPv6Address._ip_int_from_string`, after splitting on `:` and expanding
a trailing embedded IPv4 address. -/
def parseIPv6Parts (parts : List (List Char)) : Option Nat :=
  if parts.length < 3 then none
  else
    match expandEmbeddedV4 parts with
    | none => none
    | some ps =>
      if ps.length > 9 then none
      else
        match interiorEmpties ps with
        | [] =>
          -- no `::`: exactly eight groups, none of them empty at the ends
          if ps.length ≠ 8 then none
          else if ps.headD [] = [] then none
          else if ps.getLastD [] = [] then none
          else foldHextets ps
        | [i] =>
          let hi := ps.take i
          let lo := ps.drop (i + 1)
          -- a leading (trailing) empty group is only the other half of `::`
          let hi' := if hi.headD [' '] = [] then (if i = 1 then some ([] : List (List Char)) else none) else some hi
          let lo' := if lo.getLastD [' '] = [] then (if lo.length = 1 then some ([] : List (List Char)) else none) else some lo
          match hi', lo' with
          | some h, some l =>
            if h.length + l.length > 7 then none
            else
              match foldHextets h, foldHextets l with
              | some vh, some vl =>
                some (vh * 2 ^ (16 * (8 - h.length)) + vl)
              | _, _ => none
          | _, _ => none
        | _ => none

def parseIPv6Chars (cs : List Char) : Option Nat :=
  parseIPv6Parts (splitOnChar ':' cs)

/-- `ipaddress.ip_address(s)`: try IPv4 first, then IPv6. -/
def parseIP (s : String) : Option IPAddr :=
  match parseIPv4Chars s.data with
  | some v => some (.v4 v)
  | none =>
    match parseIPv6Chars s.data with
    | some v => some (.v6 v)
    | none => none

/-- First longest run of zeros (start, length), ties won by the earlier
run, mirroring `IPv6Address._compress_hextets`. -/
def bestZeroRunAux : List Nat → Nat → Nat × Nat → Nat × Nat → Nat × Nat
  | [], _, best, _ => best
  | h :: t, i, (bs, bl), (cs, cl) =>
    if h = 0 then
      let cs' := if cl = 0 then i else cs
      let cl' := cl + 1
      let best' := if cl' > bl then (cs', cl') else (bs, bl)
      bestZeroRunAux t (i + 1) best' (cs', cl')
    else bestZeroRunAux t (i + 1) (bs, bl) (0, 0)

def bestZeroRun (l : List Nat) : Nat × Nat := bestZeroRunAux l 0 (0, 0) (0, 0)

def v6Hextets (n : Nat) : List Nat :=
  (List.range 8).map (fun i => n / 2 ^ (16 * (7 - i)) % 65536)

/-- `IPv6Address.__str__` (RFC 5952): compress the best run when it has at
least two zero groups. -/
def v6Chars (n : Nat) : List Char :=
  let hx := v6Hextets n
  let (bs, bl) := bestZeroRun hx
  if bl > 1 then
    let pre := (hx.take bs).map hexChars
    let post := (hx.drop (bs + bl)).map hexChars
    joinWithChar ':'
      ((if pre.isEmpty then [[]] else pre) ++ [[]] ++ (if post.isEmpty then [[]] else post))
  else joinWithChar ':' (hx.map hexChars)

def v4Chars (n : Nat) : List Char :=
  joinWithChar '.'
    [decChars (n / 16777216 % 256), decChars (n / 65536 % 256),
     decChars (n / 256 % 256), decChars (n % 256)]

/-- `str(addr)` for a parsed address. -/
def ipToString : IPAddr → String
  | .v4 n => ⟨v4Chars n⟩
  | .v6 n => ⟨v6Chars n⟩

example : parseIP "203.0.113.1" = some (.v4 3405803777) := by decide
example : parseIP "203.0.113.256" = none := by decide
example : parseIP "203.0.113.01" = none := by decide
example : parseIP "::1" = some (.v6 1) := by decide
example : parseIP "0:0:0:0:0:0:0:1" = some (.v6 1) := by decide
example : parseIP "2001:DB8::1" = parseIP "2001:db8::1" := by decide
example : parseIP "2001:DB8::1" ≠ none := by decide
example : (parseIP "2001:DB8::1").map ipToString = some "2001:db8::1" := by decide
example : ipToString (.v6 1) = "::1" := by decide
example : ipToString (.v4 3405803777) = "203.0.113.1" := by decide
example : parseIP "not-an-ip" = none := by decide
example : parseIP "" = none := by decide
example : parseIP "1::2::3" = none := by decide
example : (parseIP "::ffff:1.2.3.4").map ipToString = some "::ffff:102:304" := by decide

/-! ## Neighbor normalizer: `Router._napalm_bgp_neighbors_to_peer_list`

Raw input: a per-VRF map whose `peers` value maps an IP string to a detail
mapping.  Python dicts iterate in insertion order, so both maps are
embedded as association lists.  Only the presence and value of the
`remote_as` field of a detail mapping is consumed. -/

structure PeerDetail where
  remote_as : Option Nat
deriving DecidableEq, Repr

structure BGPPeer where
  ip_address : IPAddr
  remote_asn : Nat
deriving DecidableEq, Repr

def strMem (s : String) : List String → Bool
  | [] => false
  | t :: ts => if t = s then true else strMem s ts

/-- The body of the peer loop: drop an entry without `remote_as`, drop an
entry whose raw IP string equals the `str()` of an already collected
peer's address, drop an entry whose IP string fails to parse, otherwise
append the parsed peer. -/
def processPeer (acc : List BGPPeer) (entry : String × PeerDetail) : List BGPPeer :=
  match entry.2.remote_as with
  | none => acc
  | some asn =>
    if strMem entry.1 (acc.map (fun i => ipToString i.ip_address)) then acc
    else
      match parseIP entry.1 with
      | some a => acc ++ [{ ip_address := a, remote_asn := asn }]
      | none => acc

/-- `Router._napalm_bgp_neighbors_to_peer_list`: VRF loop over the peer
loop; an empty or missing input yields the empty list. -/
def napalmBgpNeighborsToPeerList (napalm_dict : List (String × List (String × PeerDetail))) :
    List BGPPeer :=
  if napalm_dict.isEmpty then []
  else napalm_dict.foldl (fun acc vrf => vrf.2.foldl processPeer acc) []

def totalPeerEntries (napalm_dict : List (String × List (String × PeerDetail))) : Nat :=
  (napalm_dict.map (fun vrf => vrf.2.length)).sum

/-- Every peer key that parses is written in its canonical textual form. -/
def canonicalKeys (napalm_dict : List (String × List (String × PeerDetail))) : Bool :=
  napalm_dict.all fun vrf =>
    vrf.2.all fun entry =>
      match parseIP entry.1 with
      | some a => ipToString a = entry.1
      | none => true

example :
    napalmBgpNeighborsToPeerList
      [("default",
        [("203.0.113.1", ⟨some 65001⟩),
         ("203.0.113.2", ⟨none⟩),
         ("bogus", ⟨some 65002⟩),
         ("203.0.113.1", ⟨some 65003⟩)])] =
      [{ ip_address := .v4 3405803777, remote_asn := 65001 }] := by decide

/-! ## Data model

Rows of the Django models consumed by the reconciliation engine.  Primary
keys are `Nat`s; foreign keys store the target's key (for
`AutonomousSystem` the unique ASN is used as the key, matching
`get_or_create(asn=...)` / `Network.objects.get(asn=...)`).  Fields of
the abstract bases `AbstractGroup` and `BGPSession` (`peering/models/
abstracts.py`, not part of the sources at hand) are modelled from the
spec's data-model section: a "check session states" toggle plus last-poll
timestamp per group, and remote AS / remote IP / BGP state / prefix
counters / last-established timestamp per session, the BGP state being
null until first polled.  Fields the engine never reads (contact info,
policies, templates, relationship labels...) are omitted. -/

abbrev Time := Nat

structure ASRecord where
  asn : Nat
  name : String
  irr_as_set : Option String
  ipv6_max_prefixes : Nat
  ipv4_max_prefixes : Nat
deriving DecidableEq, Repr

/-- `peeringdb.models.Network` cache row (only the fields read by
`AutonomousSystem.create_from_peeringdb`). -/
structure NetworkRec where
  asn : Nat
  name : String
  irr_as_set : Option String
  info_prefixes6 : Nat
  info_prefixes4 : Nat
deriving DecidableEq, Repr

/-- `peeringdb.models.NetworkIXLan` cache row: a member record at an
exchange LAN, with optional per-family addresses. -/
structure NetworkIXLanRec where
  asn : Nat
  ixlan : Nat
  ipaddr6 : Option IPAddr
  ipaddr4 : Option IPAddr
deriving DecidableEq, Repr

/-- An IP network (`IXLanPrefix.prefix`): network address plus mask
length, the family given by the address tag. -/
structure IPNet where
  addr : IPAddr
  maskLen : Nat
deriving DecidableEq, Repr

/-- `peeringdb.models.IXLanPrefix` row. -/
structure IXLanNetRec where
  ixlan : Nat
  net : IPNet
deriving DecidableEq, Repr

/-- `net.models.Connection` row (only the fields this engine reads). -/
structure ConnectionRec where
  id : Nat
  internet_exchange_point : Nat
  router : Option Nat
deriving DecidableEq, Repr

structure BGPGroupRec where
  id : Nat
  check_bgp_session_states : Bool
  bgp_session_states_update : Option Time
deriving DecidableEq, Repr

structure IXPRec where
  id : Nat
  peeringdb_ixlan : Option Nat
  local_asn : Nat
  check_bgp_session_states : Bool
  bgp_session_states_update : Option Time
deriving DecidableEq, Repr

structure DirectSession where
  id : Nat
  autonomous_system : Nat
  ip_address : IPAddr
  bgp_group : Nat
  router : Nat
  bgp_state : Option String
  received_prefix_count : Int
  advertised_prefix_count : Int
  last_established_state : Option Time
deriving DecidableEq, Repr

structure IXPSession where
  id : Nat
  autonomous_system : Nat
  ip_address : IPAddr
  ixp_connection : Nat
  bgp_state : Option String
  received_prefix_count : Int
  advertised_prefix_count : Int
  last_established_state : Option Time
deriving DecidableEq, Repr

/-- The database: one list of rows per model. -/
structure DB where
  autonomousSystems : List ASRecord
  networks : List NetworkRec
  netixlans : List NetworkIXLanRec
  ixlanNets : List IXLanNetRec
  connections : List ConnectionRec
  bgpGroups : List BGPGroupRec
  ixps : List IXPRec
  directSessions : List DirectSession
  ixpSessions : List IXPSession
deriving DecidableEq, Repr

/-- One neighbor-detail record as returned by
`get_bgp_neighbors_detail` (the fields the engine consumes; a count of
`none` models a null value in the detail mapping). -/
structure NeighborDetail where
  remote_address : IPAddr
  connection_state : String
  received_prefix_count : Option Int
  advertised_prefix_count : Option Int
deriving DecidableEq, Repr

/-- Raw per-router detail data: VRF name to ASN to detail records. -/
abbrev RawDetail := List (String × List (Nat × List NeighborDetail))

/-- `Router.bgp_neighbors_detail_as_list`: flatten a raw detail map. -/
def bgpNeighborsDetailAsList (raw : RawDetail) : List NeighborDetail :=
  raw.foldl (fun acc vrf => vrf.2.foldl (fun a asn => a ++ asn.2) acc) []

/-- Python's `str.lower` restricted to ASCII (the connection-state strings
the engine lowercases are ASCII). -/
def pyCharLower (c : Char) : Char :=
  if 'A' ≤ c ∧ c ≤ 'Z' then Char.ofNat (c.toNat + 32) else c

def strToLower (s : String) : String := ⟨s.data.map pyCharLower⟩

example : strToLower "Established" = "established" := by decide

/-! ## Session matcher and state updater

`BGPGroup.poll_peering_sessions` and
`InternetExchange.poll_peering_sessions`.  The per-session field update is
factored out exactly as the source performs it.  Note the two flavours
treat the prefix counters differently: the BGP-group flavour evaluates
`received if received > 0 else 0` (raising `TypeError` on a null count,
which aborts the enclosing transaction), the IXP flavour evaluates
`received or 0` (null becomes 0, a negative count is truthy and kept). -/

/-- Python `x if x > 0 else 0` on a possibly-null value: comparing null
raises, modelled by `Except.error`. -/
def pyGtZeroElseZero : Option Int → Except Unit Int
  | none => .error ()
  | some n => .ok (if n > 0 then n else 0)

/-- Python `x or 0` on a possibly-null integer: falsy (null or zero)
becomes 0, anything else - negative included - is kept. -/
def pyOrZero : Option Int → Int
  | none => 0
  | some n => if n = 0 then 0 else n

/-- Field updates of the BGP-group poll loop (also the body of
`DirectPeeringSession.poll`): set the lower-cased state, assign both
counters through `... if ... > 0 else 0`, and stamp
`last_established_state` whenever the state just written is
`established`. -/
def updateDirectSessionFields (s : DirectSession) (d : NeighborDetail) (now : Time) :
    Except Unit DirectSession :=
  let state := strToLower d.connection_state
  match pyGtZeroElseZero d.received_prefix_count, pyGtZeroElseZero d.advertised_prefix_count with
  | .ok received, .ok advertised =>
    .ok { s with
          bgp_state := some state,
          received_prefix_count := received,
          advertised_prefix_count := advertised,
          last_established_state :=
            if state = "established" then some now else s.last_established_state }
  | _, _ => .error ()

/-- Field updates of the IXP poll loop: same shape but counters go
through `... or 0`. -/
def updateIXPSessionFields (s : IXPSession) (d : NeighborDetail) (now : Time) : IXPSession :=
  let state := strToLower d.connection_state
  { s with
    bgp_state := some state,
    received_prefix_count := pyOrZero d.received_prefix_count,
    advertised_prefix_count := pyOrZero d.advertised_prefix_count,
    last_established_state :=
      if state = "established" then some now else s.last_established_state }

/-- `model.save()`: replace the row with the same primary key. -/
def saveDirectSession (db : DB) (s : DirectSession) : DB :=
  { db with directSessions := db.directSessions.map (fun t => if t.id = s.id then s else t) }

def saveIXPSession (db : DB) (s : IXPSession) : DB :=
  { db with ixpSessions := db.ixpSessions.map (fun t => if t.id = s.id then s else t) }

def saveGroupTs (db : DB) (g : Nat) (now : Time) : DB :=
  { db with bgpGroups := db.bgpGroups.map (fun t =>
      if t.id = g then { t with bgp_session_states_update := some now } else t) }

def saveIXPTs (db : DB) (x : Nat) (now : Time) : DB :=
  { db with ixps := db.ixps.map (fun t =>
      if t.id = x then { t with bgp_session_states_update := some now } else t) }

/-- Database writes performed inside a poll cycle, in program order. -/
inductive Event where
  | directWrite (s : DirectSession)
  | ixpWrite (s : IXPSession)
  | groupTs (g : Nat) (t : Time)
  | ixpTs (x : Nat) (t : Time)
deriving DecidableEq, Repr

def Event.isGroupTs : Event → Bool
  | .groupTs _ _ => true
  | _ => false

def Event.isIxpTs : Event → Bool
  | .ixpTs _ _ => true
  | _ => false

def applyEvent (db : DB) : Event → DB
  | .directWrite s => saveDirectSession db s
  | .ixpWrite s => saveIXPSession db s
  | .groupTs g t => saveGroupTs db g t
  | .ixpTs x t => saveIXPTs db x t

def applyEvents (db : DB) (evs : List Event) : DB := evs.foldl applyEvent db

def bmem {α} [DecidableEq α] (a : α) : List α → Bool
  | [] => false
  | x :: xs => if x = a then true else bmem a xs

/-- First-occurrence deduplication, matching the key order of a Python
dict filled in iteration order. -/
def dedupFirstAux {α} [DecidableEq α] (seen : List α) : List α → List α
  | [] => []
  | x :: xs => if bmem x seen then dedupFirstAux seen xs else x :: dedupFirstAux (x :: seen) xs

def dedupFirst {α} [DecidableEq α] (l : List α) : List α := dedupFirstAux [] l

/-- One neighbor record of the BGP-group poll:
`DirectPeeringSession.objects.get(ip_address=..., bgp_group=self,
router=router)` - `DoesNotExist` is caught and the record skipped,
`MultipleObjectsReturned` propagates. -/
def processDirectDetail (gid rid : Nat) (now : Time) (db : DB) (d : NeighborDetail) :
    Except Unit (DB × List Event) :=
  match db.directSessions.filter
      (fun s => decide (s.ip_address = d.remote_address ∧ s.bgp_group = gid ∧ s.router = rid)) with
  | [] => .ok (db, [])
  | [s] =>
    match updateDirectSessionFields s d now with
    | .error e => .error e
    | .ok s' => .ok (saveDirectSession db s', [.directWrite s'])
  | _ => .error ()

def processDirectDetails (gid rid : Nat) (now : Time) (db : DB) :
    List NeighborDetail → Except Unit (DB × List Event)
  | [] => .ok (db, [])
  | d :: ds =>
    match processDirectDetail gid rid now db d with
    | .error e => .error e
    | .ok (db1, e1) =>
      match processDirectDetails gid rid now db1 ds with
      | .error e => .error e
      | .ok (db2, e2) => .ok (db2, e1 ++ e2)

def processDirectRouters (gid : Nat) (now : Time) (db : DB) :
    List (Nat × List NeighborDetail) → Except Unit (DB × List Event)
  | [] => .ok (db, [])
  | (rid, ds) :: rest =>
    match processDirectDetails gid rid now db ds with
    | .error e => .error e
    | .ok (db1, e1) =>
      match processDirectRouters gid now db1 rest with
      | .error e => .error e
      | .ok (db2, e2) => .ok (db2, e1 ++ e2)

/-- `BGPGroup.poll_peering_sessions`.  `fetch r` stands for
`router.get_bgp_neighbors_detail()` for the router with key `r` (invoked
once per distinct router, the result flattened by
`bgp_neighbors_detail_as_list`).  The `with transaction.atomic()` block
wraps the whole loop and the trailing group-timestamp save; a raised
exception is the `Except.error` case, in which the caller observes the
original database. -/
def BGPGroupPoll (db : DB) (g : BGPGroupRec) (fetch : Nat → RawDetail) (now : Time) :
    Except Unit (DB × List Event × Bool) :=
  if !g.check_bgp_session_states then .ok (db, [], false)
  else
    let peering_sessions := db.directSessions.filter (fun s => decide (s.bgp_group = g.id))
    if peering_sessions.isEmpty then .ok (db, [], false)
    else
      let routers := dedupFirst (peering_sessions.map (fun s => s.router))
      let detail := routers.map (fun r => (r, bgpNeighborsDetailAsList (fetch r)))
      if detail.isEmpty then .ok (db, [], false)
      else
        match processDirectRouters g.id now db detail with
        | .error e => .error e
        | .ok (db1, evs) =>
          .ok (saveGroupTs db1 g.id now, evs ++ [.groupTs g.id now], true)

/-- The caller's view of a poll wrapped in `transaction.atomic`: on a
raised exception every write of the cycle is rolled back and no boolean
is returned. -/
def runAtomicPoll (db : DB) (r : Except Unit (DB × List Event × Bool)) : DB × Option Bool :=
  match r with
  | .ok (db', _, b) => (db', some b)
  | .error _ => (db, none)

/-- One neighbor record of the IXP poll.  The lookup is
`InternetExchangePeeringSession.objects.get(ip_address=ip_address)` -
by IP address alone, over ALL stored IXP sessions, with no
connection/IXP/router constraint. -/
def processIXPDetail (now : Time) (db : DB) (d : NeighborDetail) :
    Except Unit (DB × List Event) :=
  match db.ixpSessions.filter (fun s => decide (s.ip_address = d.remote_address)) with
  | [] => .ok (db, [])
  | [s] =>
    let s' := updateIXPSessionFields s d now
    .ok (saveIXPSession db s', [.ixpWrite s'])
  | _ => .error ()

def processIXPDetails (now : Time) (db : DB) :
    List NeighborDetail → Except Unit (DB × List Event)
  | [] => .ok (db, [])
  | d :: ds =>
    match processIXPDetail now db d with
    | .error e => .error e
    | .ok (db1, e1) =>
      match processIXPDetails now db1 ds with
      | .error e => .error e
      | .ok (db2, e2) => .ok (db2, e1 ++ e2)

/-- The ASN level of the raw detail map: the sessions of every ASN of one
VRF are processed in order. -/
def processIXPAsns (now : Time) (db : DB) :
    List (Nat × List NeighborDetail) → Except Unit (DB × List Event)
  | [] => .ok (db, [])
  | (_, ds) :: rest =>
    match processIXPDetails now db ds with
    | .error e => .error e
    | .ok (db1, e1) =>
      match processIXPAsns now db1 rest with
      | .error e => .error e
      | .ok (db2, e2) => .ok (db2, e1 ++ e2)

/-- The VRF level: after the sessions of a VRF's ASN map, the source saves
`self.bgp_session_states_update` - inside the VRF loop, so once per VRF of
every router. -/
def processIXPVrfs (xid : Nat) (now : Time) (db : DB) :
    RawDetail → Except Unit (DB × List Event)
  | [] => .ok (db, [])
  | (_, asns) :: rest =>
    match processIXPAsns now db asns with
    | .error e => .error e
    | .ok (db1, e1) =>
      match processIXPVrfs xid now (saveIXPTs db1 xid now) rest with
      | .error e => .error e
      | .ok (db3, e3) => .ok (db3, e1 ++ [.ixpTs xid now] ++ e3)

/-- The router level: a router whose fetched detail map is empty makes
the whole method `return False` immediately (inside the atomic decorator,
so previously applied writes commit). -/
def processIXPRouters (xid : Nat) (now : Time) (db : DB) :
    List (Nat × RawDetail) → Except Unit (DB × List Event × Bool)
  | [] => .ok (db, [], true)
  | (_, raw) :: rest =>
    if raw.isEmpty then .ok (db, [], false)
    else
      match processIXPVrfs xid now db raw with
      | .error e => .error e
      | .ok (db1, e1) =>
        match processIXPRouters xid now db1 rest with
        | .error e => .error e
        | .ok (db2, e2, b) => .ok (db2, e1 ++ e2, b)

/-- The routers connected to an IXP, in connection order, deduplicated
(`Router.objects.filter(pk__in=...)` over the IXP's connections). -/
def connectedRouters (db : DB) (xid : Nat) : List Nat :=
  dedupFirst ((db.connections.filter
    (fun c => decide (c.internet_exchange_point = xid))).filterMap (fun c => c.router))

/-- `InternetExchange.poll_peering_sessions`, decorated with
`@transaction.atomic`: the entire method is one transaction, an escaping
exception (the `Except.error` case) rolls everything back.  The dead
`connected_routers.count() < 0` guard is kept as in the source. -/
def InternetExchangePoll (db : DB) (x : IXPRec) (fetch : Nat → RawDetail) (now : Time) :
    Except Unit (DB × List Event × Bool) :=
  let connected := connectedRouters db x.id
  if connected.length < 0 then .ok (db, [], false)
  else if !x.check_bgp_session_states then .ok (db, [], false)
  else processIXPRouters x.id now db (connected.map (fun r => (r, fetch r)))

/-! ## Session discovery / import: `InternetExchange.import_sessions` -/

/-- `ip_address in prefix` for a network stored with host bits zeroed:
same family and same high `maskLen` bits. -/
def ipInNet (ip : IPAddr) (p : IPNet) : Bool :=
  let bits := if p.addr.version = 4 then 32 else 128
  decide (ip.version = p.addr.version) &&
    decide (ip.val / 2 ^ (bits - p.maskLen) = p.addr.val / 2 ^ (bits - p.maskLen))

/-- The inner `is_valid` closure: the IP fits some allowed prefix of its
own family. -/
def isValidIp (allowed : List IXLanNetRec) (ip : IPAddr) : Bool :=
  allowed.any (fun p => decide (p.net.addr.version = ip.version) && ipInNet ip p.net)

/-- `InternetExchange.get_prefixes`: empty unless linked to PeeringDB,
otherwise the cached prefixes of the linked ixlan. -/
def getIXPNets (db : DB) (x : IXPRec) : List IXLanNetRec :=
  match x.peeringdb_ixlan with
  | none => []
  | some l => db.ixlanNets.filter (fun p => decide (p.ixlan = l))

/-- `AutonomousSystem.create_from_peeringdb`: `None` when no cached
PeeringDB network exists for the ASN, otherwise `get_or_create` keyed by
the unique ASN, with defaults copied from the network record. -/
def createFromPeeringdb (db : DB) (asn : Nat) : Option ASRecord × DB :=
  match db.networks.find? (fun n => decide (n.asn = asn)) with
  | none => (none, db)
  | some network =>
    match db.autonomousSystems.find? (fun a => decide (a.asn = asn)) with
    | some a => (some a, db)
    | none =>
      let a : ASRecord :=
        { asn := network.asn, name := network.name, irr_as_set := network.irr_as_set,
          ipv6_max_prefixes := network.info_prefixes6,
          ipv4_max_prefixes := network.info_prefixes4 }
      (some a, { db with autonomousSystems := db.autonomousSystems ++ [a] })

/-- A fresh primary key for a created session (database autoincrement). -/
def freshIXPSessionId (db : DB) : Nat :=
  (db.ixpSessions.map (fun s => s.id)).foldl max 0 + 1

/-- One live neighbor of `import_sessions`: skip when outside every
allowed prefix; skip when a session for (this connection, this IP)
already exists (`objects.get`, `MultipleObjectsReturned` propagating);
otherwise resolve-or-create the AS, count it whenever it resolved (the
`ignored_autonomous_systems` list only affects logging), and create the
session. -/
def processImportNeighbor (conn : Nat) (allowed : List IXLanNetRec)
    (db : DB) (session_number asn_number : Nat) (s : BGPPeer) :
    Except Unit (DB × Nat × Nat) :=
  let ip := s.ip_address
  if !isValidIp allowed ip then .ok (db, session_number, asn_number)
  else
    match db.ixpSessions.filter
        (fun t => decide (t.ixp_connection = conn ∧ t.ip_address = ip)) with
    | _ :: _ :: _ => .error ()
    | [_] => .ok (db, session_number, asn_number)
    | [] =>
      match createFromPeeringdb db s.remote_asn with
      | (none, db1) => .ok (db1, session_number, asn_number)
      | (some a, db1) =>
        let created : IXPSession :=
          { id := freshIXPSessionId db1, autonomous_system := a.asn, ip_address := ip,
            ixp_connection := conn, bgp_state := none, received_prefix_count := 0,
            advertised_prefix_count := 0, last_established_state := none }
        .ok ({ db1 with ixpSessions := db1.ixpSessions ++ [created] },
             session_number + 1, asn_number + 1)

def importLoop (conn : Nat) (allowed : List IXLanNetRec) :
    DB → Nat → Nat → List BGPPeer → Except Unit (DB × Nat × Nat)
  | db, sn, an, [] => .ok (db, sn, an)
  | db, sn, an, s :: rest =>
    match processImportNeighbor conn allowed db sn an s with
    | .error e => .error e
    | .ok (db1, sn1, an1) => importLoop conn allowed db1 sn1 an1 rest

/-- `InternetExchange.import_sessions(connection)`, decorated with
`@transaction.atomic`.  `neighbors` is
`connection.router.get_bgp_neighbors()` (the normalized peer list, §4.1);
re-parsing `session["ip_address"]` is the identity on an already parsed
address.  Returns `(session_number, asn_number)`. -/
def importSessions (db : DB) (x : IXPRec) (conn : Nat) (neighbors : List BGPPeer) :
    Except Unit (DB × Nat × Nat) :=
  importLoop conn (getIXPNets db x) db 0 0 neighbors

/-! ## Abandonment classifier: `InternetExchangePeeringSession.is_abandoned` -/

/-- `InternetExchangePeeringSession.exists_in_peeringdb`:
`NetworkIXLan.objects.get(ipaddr{v}=str(ip))` - `True` on a hit,
`False` on `DoesNotExist`, `MultipleObjectsReturned` propagating.
Matching the stored inet column against `str(ip)` compares parsed
addresses, so the lookup is by address value. -/
def pdbMemberMatches (db : DB) (s : IXPSession) : List NetworkIXLanRec :=
  db.netixlans.filter (fun n =>
    if s.ip_address.version = 6 then decide (n.ipaddr6 = some s.ip_address)
    else decide (n.ipaddr4 = some s.ip_address))

def existsInPeeringdb (db : DB) (s : IXPSession) : Except Unit Bool :=
  match pdbMemberMatches db s with
  | [] => .ok false
  | [_] => .ok true
  | _ => .error ()

/-- Modelled from the spec: `Connection.linked_to_peeringdb`
(`net/models.py` is not among the sources at hand).  Spec §4.5: "the
connection's IXP is linked to an external record". -/
def connectionLinkedToPeeringdb (db : DB) (c : ConnectionRec) : Bool :=
  match db.ixps.find? (fun x => decide (x.id = c.internet_exchange_point)) with
  | some x => x.peeringdb_ixlan.isSome
  | none => false

/-- `AutonomousSystem.peeringdb_network` for the AS keyed by `asn`. -/
def peeringdbNetwork (db : DB) (asn : Nat) : Option NetworkRec :=
  db.networks.find? (fun n => decide (n.asn = asn))

/-- `InternetExchangePeeringSession.is_abandoned`: `False` as soon as one
of the five guard conditions fails, in the source's short-circuit order;
`Except.error` when a foreign-key row is missing or a lookup raises
`MultipleObjectsReturned`. -/
def isAbandoned (db : DB) (s : IXPSession) : Except Unit Bool :=
  match db.connections.find? (fun c => decide (c.id = s.ixp_connection)) with
  | none => .error ()
  | some c =>
    match db.ixps.find? (fun x => decide (x.id = c.internet_exchange_point)) with
    | none => .error ()
    | some x =>
      if !connectionLinkedToPeeringdb db c then .ok false
      else if !x.check_bgp_session_states then .ok false
      else if (peeringdbNetwork db s.autonomous_system).isNone then .ok false
      else
        match existsInPeeringdb db s with
        | .error e => .error e
        | .ok true => .ok false
        | .ok false =>
          if s.bgp_state = some "idle" ∨ s.bgp_state = some "active" then .ok true
          else .ok false

/-! ## Peer discovery: `InternetExchange.get_available_peers`

The ORM filter `~Q(asn=...) & Q(ixlan=...) & (~Q(ipaddr6__in=...) |
~Q(ipaddr4__in=...))` compiles to SQL evaluated in three-valued logic: a
null `ipaddr` column makes `ipaddr IN (...)` unknown for a non-empty
list (Django adds no null handling to `__in`), while an empty list
compiles to an always-false condition.  A row is returned only when the
whole predicate evaluates to true. -/

inductive SqlB where
  | t
  | f
  | u
deriving DecidableEq, Repr

def sqlNot : SqlB → SqlB
  | .t => .f
  | .f => .t
  | .u => .u

def sqlOr : SqlB → SqlB → SqlB
  | .t, _ => .t
  | _, .t => .t
  | .u, _ => .u
  | _, .u => .u
  | .f, .f => .f

/-- `column IN (list)` for a nullable address column. -/
def sqlIn (x : Option IPAddr) (l : List IPAddr) : SqlB :=
  match x with
  | none => if l.isEmpty then .f else .u
  | some v => if bmem v l then .t else .f

/-- `InternetExchange.get_peering_sessions`: sessions over this IXP's
connections. -/
def ixpPeeringSessions (db : DB) (xid : Nat) : List IXPSession :=
  db.ixpSessions.filter (fun s =>
    (db.connections.filter (fun c => decide (c.internet_exchange_point = xid))).any
      (fun c => decide (c.id = s.ixp_connection)))

def existingV6 (db : DB) (xid : Nat) : List IPAddr :=
  (ixpPeeringSessions db xid).filterMap (fun s =>
    if s.ip_address.version = 6 then some s.ip_address else none)

def existingV4 (db : DB) (xid : Nat) : List IPAddr :=
  (ixpPeeringSessions db xid).filterMap (fun s =>
    if s.ip_address.version = 4 then some s.ip_address else none)

/-- The row predicate of the `NetworkIXLan.objects.filter(...)` call. -/
def availablePeerRow (localAsn ixl : Nat) (v6s v4s : List IPAddr)
    (n : NetworkIXLanRec) : Bool :=
  decide (n.asn ≠ localAsn) && decide (n.ixlan = ixl) &&
    decide (sqlOr (sqlNot (sqlIn n.ipaddr6 v6s)) (sqlNot (sqlIn n.ipaddr4 v4s)) = .t)

def insertByAsn (n : NetworkIXLanRec) : List NetworkIXLanRec → List NetworkIXLanRec
  | [] => [n]
  | m :: ms => if n.asn ≤ m.asn then n :: m :: ms else m :: insertByAsn n ms

/-- `order_by("asn")`. -/
def sortByAsn (l : List NetworkIXLanRec) : List NetworkIXLanRec :=
  l.foldr insertByAsn []

/-- `InternetExchange.get_available_peers`. -/
def getAvailablePeers (db : DB) (x : IXPRec) : List NetworkIXLanRec :=
  match x.peeringdb_ixlan with
  | none => []
  | some ixl =>
    sortByAsn (db.netixlans.filter
      (availablePeerRow x.local_asn ixl (existingV6 db x.id) (existingV4 db x.id)))

/-! ## Theorems -/

/-! ### C2: last-established stamping -/

def c2Session : DirectSession :=
  { id := 1, autonomous_system := 65001, ip_address := .v4 3405803777, bgp_group := 1,
    router := 1, bgp_state := some "established", received_prefix_count := 10,
    advertised_prefix_count := 5, last_established_state := some 5 }

def c2Detail : NeighborDetail :=
  { remote_address := .v4 3405803777, connection_state := "Established",
    received_prefix_count := some 10, advertised_prefix_count := some 5 }

/-- The session after one application of `c2Detail` at time `t`. -/
def c2After (t : Time) : DirectSession :=
  { c2Session with
    bgp_state := some "established", received_prefix_count := 10,
    advertised_prefix_count := 5, last_established_state := some t }

/-- C2 counterexample: a session already in the established state,
updated from the same live-neighbor snapshot a second time at a later
clock value, has its `last_established_state` re-stamped - the claimed
no-re-stamp behaviour fails on the code. -/
theorem c2_restamp_counterexample :
    updateDirectSessionFields c2Session c2Detail 5 = .ok (c2After 5) ∧
    updateDirectSessionFields (c2After 5) c2Detail 7 = .ok (c2After 7) ∧
    (c2After 5).bgp_state = some "established" ∧
    (c2After 5).last_established_state = some 5 ∧
    (c2After 7).last_established_state = some 7 := by
  exact ⟨rfl, rfl, rfl, rfl, rfl⟩

/-- C2 (amended): `last_established_state` is stamped with the current
time on every poll whose newly reported state lower-cases to
`established`, regardless of the previous state - applying the same
snapshot twice stamps the time of each application, in both updater
flavours. -/
theorem c2_amended_stamp_on_every_established_poll :
    (∀ (s : DirectSession) (d : NeighborDetail) (t1 t2 : Time) (s1 s2 : DirectSession),
      strToLower d.connection_state = "established" →
      updateDirectSessionFields s d t1 = .ok s1 →
      updateDirectSessionFields s1 d t2 = .ok s2 →
      s1.last_established_state = some t1 ∧ s2.last_established_state = some t2) ∧
    (∀ (s : IXPSession) (d : NeighborDetail) (t1 t2 : Time),
      strToLower d.connection_state = "established" →
      (updateIXPSessionFields s d t1).last_established_state = some t1 ∧
      (updateIXPSessionFields (updateIXPSessionFields s d t1) d t2).last_established_state
        = some t2) := by
  constructor
  · intro s d t1 t2 s1 s2 hst h1 h2
    cases hr : d.received_prefix_count with
    | none => simp [updateDirectSessionFields, pyGtZeroElseZero, hr] at h1
    | some r =>
      cases ha : d.advertised_prefix_count with
      | none => simp [updateDirectSessionFields, pyGtZeroElseZero, hr, ha] at h1
      | some a =>
        simp only [updateDirectSessionFields, pyGtZeroElseZero, hr, ha, hst,
          if_pos rfl] at h1 h2
        cases h1
        cases h2
        simp
  · intro s d t1 t2 hst
    simp [updateIXPSessionFields, hst]

/-- C2 witness. -/
theorem c2_amended_witness :
    (c2After 3).last_established_state = some 3 ∧
    (c2After 9).last_established_state = some 9 :=
  c2_amended_stamp_on_every_established_poll.1 c2Session c2Detail 3 9 (c2After 3)
    (c2After 9) (by decide) rfl rfl

/-! ### C6: prefix-count clamping -/

def c6Session : IXPSession :=
  { id := 2, autonomous_system := 65001, ip_address := .v6 1, ixp_connection := 1,
    bgp_state := some "established", received_prefix_count := 3,
    advertised_prefix_count := 3, last_established_state := none }

def c6Detail : NeighborDetail :=
  { remote_address := .v6 1, connection_state := "Active",
    received_prefix_count := some (-5), advertised_prefix_count := some (-2) }

/-- C6 counterexample: the IXP updater evaluates `received or 0`, and a
negative count is truthy in Python, so -5 is stored unchanged - the
claimed clamp-to-zero fails on the code. -/
theorem c6_negative_count_stored_counterexample :
    (updateIXPSessionFields c6Session c6Detail 1).received_prefix_count = -5 ∧
    (updateIXPSessionFields c6Session c6Detail 1).advertised_prefix_count = -2 ∧
    (updateIXPSessionFields c6Session c6Detail 1).received_prefix_count < 0 := by
  refine ⟨rfl, rfl, by decide⟩

/-- C6 (amended): the two updater flavours handle bad counts
differently.  The BGP-group flavour (`x if x > 0 else 0`) clamps any
present count to a non-negative value but raises on a null count,
aborting the poll's transaction; the IXP flavour (`x or 0`) turns a null
count into 0 but stores a present count - negative included -
unchanged. -/
theorem c6_amended_count_handling :
    (∀ (s : DirectSession) (d : NeighborDetail) (now : Time) (s1 : DirectSession),
      updateDirectSessionFields s d now = .ok s1 →
      0 ≤ s1.received_prefix_count ∧ 0 ≤ s1.advertised_prefix_count) ∧
    (∀ (s : DirectSession) (d : NeighborDetail) (now : Time),
      d.received_prefix_count = none ∨ d.advertised_prefix_count = none →
      updateDirectSessionFields s d now = .error ()) ∧
    (∀ (s : IXPSession) (d : NeighborDetail) (now : Time),
      d.received_prefix_count = none →
      (updateIXPSessionFields s d now).received_prefix_count = 0) ∧
    (∀ (s : IXPSession) (d : NeighborDetail) (now : Time) (n : Int),
      d.received_prefix_count = some n →
      (updateIXPSessionFields s d now).received_prefix_count = n) := by
  refine ⟨?_, ?_, ?_, ?_⟩
  · intro s d now s1 h
    cases hr : d.received_prefix_count with
    | none => simp [updateDirectSessionFields, pyGtZeroElseZero, hr] at h
    | some r =>
      cases ha : d.advertised_prefix_count with
      | none => simp [updateDirectSessionFields, pyGtZeroElseZero, hr, ha] at h
      | some a =>
        simp only [updateDirectSessionFields, pyGtZeroElseZero, hr, ha] at h
        cases h
        constructor <;> simp <;> split <;> omega
  · intro s d now h
    rcases h with h | h <;>
      · cases hr : d.received_prefix_count <;> cases ha : d.advertised_prefix_count <;>
          simp_all [updateDirectSessionFields, pyGtZeroElseZero]
  · intro s d now h
    simp [updateIXPSessionFields, pyOrZero, h]
  · intro s d now n h
    simp only [updateIXPSessionFields, pyOrZero, h]
    split <;> omega

def c6DirectSession : DirectSession :=
  { id := 3, autonomous_system := 65001, ip_address := .v4 7, bgp_group := 1,
    router := 1, bgp_state := none, received_prefix_count := 0,
    advertised_prefix_count := 0, last_established_state := none }

def c6NegDetail : NeighborDetail :=
  { remote_address := .v4 7, connection_state := "Idle",
    received_prefix_count := some (-9), advertised_prefix_count := some 4 }

def c6NullDetail : NeighborDetail :=
  { remote_address := .v4 7, connection_state := "Idle",
    received_prefix_count := none, advertised_prefix_count := some 4 }

/-- The session after the clamped negative-count update. -/
def c6NegAfter : DirectSession :=
  { c6DirectSession with
    bgp_state := some "idle", received_prefix_count := 0,
    advertised_prefix_count := 4 }

/-- C6 witness. -/
theorem c6_amended_witness :
    (0 ≤ c6NegAfter.received_prefix_count ∧ 0 ≤ c6NegAfter.advertised_prefix_count) ∧
    updateDirectSessionFields c6DirectSession c6NullDetail 1 = .error () ∧
    (updateIXPSessionFields c6Session c6NullDetail 1).received_prefix_count = 0 := by
  refine ⟨c6_amended_count_handling.1 c6DirectSession c6NegDetail 1 c6NegAfter rfl,
    c6_amended_count_handling.2.1 c6DirectSession c6NullDetail 1 (Or.inl rfl),
    c6_amended_count_handling.2.2.1 c6Session c6NullDetail 1 rfl⟩

/-! ### C1: session lookup scope in the match step -/

def c1EmptyDB : DB :=
  { autonomousSystems := [], networks := [], netixlans := [], ixlanNets := [],
    connections := [], bgpGroups := [], ixps := [], directSessions := [],
    ixpSessions := [] }

def c1IxpA : IXPRec :=
  { id := 1, peeringdb_ixlan := some 10, local_asn := 64500,
    check_bgp_session_states := true, bgp_session_states_update := none }

def c1IxpB : IXPRec :=
  { id := 2, peeringdb_ixlan := some 11, local_asn := 64500,
    check_bgp_session_states := true, bgp_session_states_update := none }

/-- A session on connection 7, which attaches router 9 to IXP B. -/
def c1Session : IXPSession :=
  { id := 5, autonomous_system := 65010, ip_address := .v4 100, ixp_connection := 7,
    bgp_state := some "idle", received_prefix_count := 0,
    advertised_prefix_count := 0, last_established_state := none }

def c1DB : DB :=
  { c1EmptyDB with
    connections :=
      [{ id := 3, internet_exchange_point := 1, router := some 2 },
       { id := 7, internet_exchange_point := 2, router := some 9 }],
    ixps := [c1IxpA, c1IxpB],
    ixpSessions := [c1Session] }

def c1Detail : NeighborDetail :=
  { remote_address := .v4 100, connection_state := "Established",
    received_prefix_count := some 12, advertised_prefix_count := some 4 }

/-- Router 2 (attached to IXP A) reports a neighbor whose IP matches the
IXP-B session; no other router reports anything. -/
def c1Fetch (r : Nat) : RawDetail :=
  if r = 2 then [("global", [(65010, [c1Detail])])] else []

def c1SessionAfter : IXPSession :=
  { c1Session with
    bgp_state := some "established", received_prefix_count := 12,
    advertised_prefix_count := 4, last_established_state := some 7 }

def c1DBAfter : DB :=
  { c1DB with
    ixpSessions := [c1SessionAfter],
    ixps := [{ c1IxpA with bgp_session_states_update := some 7 }, c1IxpB] }

/-- C1: polling IXP A over its only router updates the stored session
whose connection belongs to IXP B on another router, because the lookup
in `InternetExchange.poll_peering_sessions` is by IP address alone - the
session is matched and rewritten although it is not on the polled IXP,
contradicting the exact (IP, scope, router) matching the claim states
and the source's own "Check if the BGP session is on this IX" comment. -/
theorem c1_ixp_poll_updates_foreign_session :
    InternetExchangePoll c1DB c1IxpA c1Fetch 7 =
      .ok (c1DBAfter, [.ixpWrite c1SessionAfter, .ixpTs 1 7], true) ∧
    (c1DB.connections.filter
      (fun c => decide (c.internet_exchange_point = c1IxpA.id))).all
        (fun c => decide (c.id ≠ c1Session.ixp_connection)) = true ∧
    c1SessionAfter.bgp_state = some "established" ∧
    c1Session.bgp_state = some "idle" := by
  exact ⟨rfl, by decide, rfl, rfl⟩

/-! ### C4: behaviour on a router with no neighbor data -/

/-- C4 (amended): during an IXP poll, a router whose fetched neighbor
data is empty makes the whole poll behave as if the router list ended
there with result `False`: the routers after it are never processed, no
further updates happen, and the poll reports failure even when earlier
routers were polled successfully (their updates are kept, the early
return not being an exception). -/
theorem c4_amended_empty_router_aborts_rest :
    ∀ (xid : Nat) (now : Time) (db : DB) (pre post : List (Nat × RawDetail)) (r : Nat),
      processIXPRouters xid now db (pre ++ (r, []) :: post) =
        (processIXPRouters xid now db pre).map (fun t => (t.1, t.2.1, false)) := by
  intro xid now db pre post r
  induction pre generalizing db with
  | nil => simp [processIXPRouters, Except.map]
  | cons head tail ih =>
    rcases head with ⟨r0, raw0⟩
    by_cases h0 : raw0.isEmpty
    · simp [processIXPRouters, h0, Except.map]
    · simp only [List.cons_append, processIXPRouters, h0, Bool.false_eq_true,
        if_false]
      cases hv : processIXPVrfs xid now db raw0 with
      | error e => simp [Except.map, bind, Except.bind]
      | ok p =>
        rcases p with ⟨db1, e1⟩
        simp only [bind, Except.bind, List.append_eq]
        cases hr : processIXPRouters xid now db1 tail with
        | error e => rw [ih db1, hr]; simp [Except.map]
        | ok q => rcases q with ⟨db2, e2, b⟩; rw [ih db1, hr]; simp [Except.map]

def c4Ixp : IXPRec :=
  { id := 1, peeringdb_ixlan := some 10, local_asn := 64500,
    check_bgp_session_states := true, bgp_session_states_update := none }

def c4Session1 : IXPSession :=
  { id := 11, autonomous_system := 65001, ip_address := .v4 21, ixp_connection := 3,
    bgp_state := some "idle", received_prefix_count := 0,
    advertised_prefix_count := 0, last_established_state := none }

def c4Session3 : IXPSession :=
  { id := 13, autonomous_system := 65003, ip_address := .v4 23, ixp_connection := 5,
    bgp_state := some "idle", received_prefix_count := 0,
    advertised_prefix_count := 0, last_established_state := none }

/-- IXP 1 attaches routers 2, 9 and 6 through connections 3, 4 and 5. -/
def c4DB : DB :=
  { c1EmptyDB with
    connections :=
      [{ id := 3, internet_exchange_point := 1, router := some 2 },
       { id := 4, internet_exchange_point := 1, router := some 9 },
       { id := 5, internet_exchange_point := 1, router := some 6 }],
    ixps := [c4Ixp],
    ixpSessions := [c4Session1, c4Session3] }

/-- Routers 2 and 6 answer with matching neighbors; router 9 - polled
second - yields no data. -/
def c4Fetch (r : Nat) : RawDetail :=
  if r = 2 then
    [("global", [(65001, [{ remote_address := .v4 21, connection_state := "Established",
                            received_prefix_count := some 8,
                            advertised_prefix_count := some 2 }])])]
  else if r = 6 then
    [("global", [(65003, [{ remote_address := .v4 23, connection_state := "Established",
                            received_prefix_count := some 9,
                            advertised_prefix_count := some 3 }])])]
  else []

def c4Session1After : IXPSession :=
  { c4Session1 with
    bgp_state := some "established", received_prefix_count := 8,
    advertised_prefix_count := 2, last_established_state := some 9 }

def c4DBAfter : DB :=
  { c4DB with
    ixpSessions := [c4Session1After, c4Session3],
    ixps := [{ c4Ixp with bgp_session_states_update := some 9 }] }

/-- C4 counterexample: router 9 yielding no data makes the whole IXP
poll return `False` and leaves router 6 unpolled (its matching session
keeps its old state), although router 2 was polled successfully - the
claim's "only skips that router / other routers still polled / true if
at least one router succeeded" all fail on the code. -/
theorem c4_empty_router_counterexample :
    InternetExchangePoll c4DB c4Ixp c4Fetch 9 =
      .ok (c4DBAfter, [.ixpWrite c4Session1After, .ixpTs 1 9], false) ∧
    c4DBAfter.ixpSessions = [c4Session1After, c4Session3] ∧
    c4Session3.bgp_state = some "idle" ∧
    (c4Fetch 6).isEmpty = false := by
  exact ⟨rfl, rfl, rfl, rfl⟩

/-! ### C3: transactional shape of a poll cycle -/

theorem applyEvents_append (db : DB) (e1 e2 : List Event) :
    applyEvents db (e1 ++ e2) = applyEvents (applyEvents db e1) e2 := by
  simp [applyEvents, List.foldl_append]

theorem processDirectDetail_trace {gid rid : Nat} {now : Time} {db : DB}
    {d : NeighborDetail} {db' : DB} {evs : List Event}
    (h : processDirectDetail gid rid now db d = .ok (db', evs)) :
    db' = applyEvents db evs ∧ evs.countP Event.isGroupTs = 0 := by
  unfold processDirectDetail at h
  split at h
  · cases h
    exact ⟨rfl, rfl⟩
  · split at h
    · cases h
    · cases h
      exact ⟨rfl, rfl⟩
  · cases h

theorem processDirectDetails_trace {gid rid : Nat} {now : Time} {db : DB}
    {ds : List NeighborDetail} {db' : DB} {evs : List Event}
    (h : processDirectDetails gid rid now db ds = .ok (db', evs)) :
    db' = applyEvents db evs ∧ evs.countP Event.isGroupTs = 0 := by
  induction ds generalizing db evs with
  | nil =>
    unfold processDirectDetails at h
    cases h
    exact ⟨rfl, rfl⟩
  | cons d ds ih =>
    unfold processDirectDetails at h
    split at h
    · cases h
    · rename_i db1 e1 h1
      split at h
      · cases h
      · rename_i db2 e2 h2
        cases h
        obtain ⟨hdb1, hc1⟩ := processDirectDetail_trace h1
        obtain ⟨hdb2, hc2⟩ := ih h2
        subst hdb1
        subst hdb2
        exact ⟨(applyEvents_append db e1 e2).symm, by simp [List.countP_append, hc1, hc2]⟩

theorem processDirectRouters_trace {gid : Nat} {now : Time} {db : DB}
    {rs : List (Nat × List NeighborDetail)} {db' : DB} {evs : List Event}
    (h : processDirectRouters gid now db rs = .ok (db', evs)) :
    db' = applyEvents db evs ∧ evs.countP Event.isGroupTs = 0 := by
  induction rs generalizing db evs with
  | nil =>
    unfold processDirectRouters at h
    cases h
    exact ⟨rfl, rfl⟩
  | cons p rest ih =>
    unfold processDirectRouters at h
    split at h
    · cases h
    · rename_i db1 e1 h1
      split at h
      · cases h
      · rename_i db2 e2 h2
        cases h
        obtain ⟨hdb1, hc1⟩ := processDirectDetails_trace h1
        obtain ⟨hdb2, hc2⟩ := ih h2
        subst hdb1
        subst hdb2
        exact ⟨(applyEvents_append db e1 e2).symm, by simp [List.countP_append, hc1, hc2]⟩

theorem processIXPDetail_trace {now : Time} {db : DB} {d : NeighborDetail}
    {db' : DB} {evs : List Event}
    (h : processIXPDetail now db d = .ok (db', evs)) :
    db' = applyEvents db evs ∧ evs.countP Event.isIxpTs = 0 := by
  unfold processIXPDetail at h
  split at h
  · cases h
    exact ⟨rfl, rfl⟩
  · cases h
    exact ⟨rfl, rfl⟩
  · cases h

theorem processIXPDetails_trace {now : Time} {db : DB} {ds : List NeighborDetail}
    {db' : DB} {evs : List Event}
    (h : processIXPDetails now db ds = .ok (db', evs)) :
    db' = applyEvents db evs ∧ evs.countP Event.isIxpTs = 0 := by
  induction ds generalizing db evs with
  | nil =>
    unfold processIXPDetails at h
    cases h
    exact ⟨rfl, rfl⟩
  | cons d ds ih =>
    unfold processIXPDetails at h
    split at h
    · cases h
    · rename_i db1 e1 h1
      split at h
      · cases h
      · rename_i db2 e2 h2
        cases h
        obtain ⟨hdb1, hc1⟩ := processIXPDetail_trace h1
        obtain ⟨hdb2, hc2⟩ := ih h2
        subst hdb1
        subst hdb2
        exact ⟨(applyEvents_append db e1 e2).symm, by simp [List.countP_append, hc1, hc2]⟩

theorem processIXPAsns_trace {now : Time} {db : DB}
    {asns : List (Nat × List NeighborDetail)} {db' : DB} {evs : List Event}
    (h : processIXPAsns now db asns = .ok (db', evs)) :
    db' = applyEvents db evs ∧ evs.countP Event.isIxpTs = 0 := by
  induction asns generalizing db evs with
  | nil =>
    unfold processIXPAsns at h
    cases h
    exact ⟨rfl, rfl⟩
  | cons p rest ih =>
    unfold processIXPAsns at h
    split at h
    · cases h
    · rename_i db1 e1 h1
      split at h
      · cases h
      · rename_i db2 e2 h2
        cases h
        obtain ⟨hdb1, hc1⟩ := processIXPDetails_trace h1
        obtain ⟨hdb2, hc2⟩ := ih h2
        subst hdb1
        subst hdb2
        exact ⟨(applyEvents_append db e1 e2).symm, by simp [List.countP_append, hc1, hc2]⟩

theorem processIXPVrfs_trace {xid : Nat} {now : Time} {db : DB} {raw : RawDetail}
    {db' : DB} {evs : List Event}
    (h : processIXPVrfs xid now db raw = .ok (db', evs)) :
    db' = applyEvents db evs ∧ evs.countP Event.isIxpTs = raw.length := by
  induction raw generalizing db evs with
  | nil =>
    unfold processIXPVrfs at h
    cases h
    exact ⟨rfl, rfl⟩
  | cons p rest ih =>
    unfold processIXPVrfs at h
    split at h
    · cases h
    · rename_i db1 e1 h1
      split at h
      · cases h
      · rename_i db3 e3 h3
        cases h
        obtain ⟨hdb1, hc1⟩ := processIXPAsns_trace h1
        obtain ⟨hdb3, hc3⟩ := ih h3
        subst hdb1
        subst hdb3
        constructor
        · rw [applyEvents_append, applyEvents_append]
          rfl
        · simp [List.countP_append, hc1, hc3, Event.isIxpTs, List.countP_cons]

theorem processIXPRouters_trace {xid : Nat} {now : Time} {db : DB}
    {rs : List (Nat × RawDetail)} {db' : DB} {evs : List Event} {b : Bool}
    (h : processIXPRouters xid now db rs = .ok (db', evs, b)) :
    db' = applyEvents db evs ∧
      (b = true → evs.countP Event.isIxpTs = (rs.map (fun p => p.2.length)).sum) := by
  induction rs generalizing db evs b with
  | nil =>
    unfold processIXPRouters at h
    cases h
    exact ⟨rfl, fun _ => rfl⟩
  | cons p rest ih =>
    unfold processIXPRouters at h
    split at h
    · cases h
      exact ⟨rfl, by simp⟩
    · split at h
      · cases h
      · rename_i db1 e1 h1
        split at h
        · cases h
        · rename_i db2 e2 b2 h2
          cases h
          obtain ⟨hdb1, hc1⟩ := processIXPVrfs_trace h1
          obtain ⟨hdb2, hc2⟩ := ih h2
          subst hdb1
          subst hdb2
          refine ⟨(applyEvents_append db e1 e2).symm, fun hb => ?_⟩
          simp [List.countP_append, hc1, hc2 hb]

/-- C3 (amended): each poll cycle runs as one atomic transaction - the
final database is exactly the input with the cycle's write trace applied,
and a raised exception yields the untouched input database.  For a
completed BGP-group cycle the group timestamp is written exactly once,
as the last write of the transaction.  For a completed IXP cycle the IXP
timestamp is instead written once per VRF of every polled router's detail
map, interleaved with the session writes rather than once at the end. -/
theorem c3_amended_transaction_shape :
    (∀ (db : DB) (g : BGPGroupRec) (fetch : Nat → RawDetail) (now : Time)
        (db' : DB) (evs : List Event) (b : Bool),
      BGPGroupPoll db g fetch now = .ok (db', evs, b) →
      db' = applyEvents db evs ∧
        (b = true → evs.countP Event.isGroupTs = 1 ∧
          evs.getLast? = some (.groupTs g.id now))) ∧
    (∀ (db : DB) (g : BGPGroupRec) (fetch : Nat → RawDetail) (now : Time),
      BGPGroupPoll db g fetch now = .error () →
      runAtomicPoll db (BGPGroupPoll db g fetch now) = (db, none)) ∧
    (∀ (db : DB) (x : IXPRec) (fetch : Nat → RawDetail) (now : Time)
        (db' : DB) (evs : List Event) (b : Bool),
      InternetExchangePoll db x fetch now = .ok (db', evs, b) →
      db' = applyEvents db evs ∧
        (b = true → evs.countP Event.isIxpTs =
          ((connectedRouters db x.id).map (fun r => (fetch r).length)).sum)) ∧
    (∀ (db : DB) (x : IXPRec) (fetch : Nat → RawDetail) (now : Time),
      InternetExchangePoll db x fetch now = .error () →
      runAtomicPoll db (InternetExchangePoll db x fetch now) = (db, none)) := by
  refine ⟨?_, ?_, ?_, ?_⟩
  · intro db g fetch now db' evs b h
    unfold BGPGroupPoll at h
    simp only [] at h
    split at h
    · cases h
      exact ⟨rfl, by simp⟩
    · split at h
      · cases h
        exact ⟨rfl, by simp⟩
      · split at h
        · cases h
          exact ⟨rfl, by simp⟩
        · split at h
          · cases h
          · rename_i db1 evs0 h1
            cases h
            obtain ⟨hdb1, hc1⟩ := processDirectRouters_trace h1
            subst hdb1
            refine ⟨?_, fun _ => ⟨?_, ?_⟩⟩
            · rw [applyEvents_append]
              rfl
            · simp [List.countP_append, hc1, List.countP_cons, Event.isGroupTs]
            · simp
  · intro db g fetch now h
    unfold runAtomicPoll
    rw [h]
  · intro db x fetch now db' evs b h
    unfold InternetExchangePoll at h
    simp only [] at h
    split at h
    · cases h
      exact ⟨rfl, by simp⟩
    · split at h
      · cases h
        exact ⟨rfl, by simp⟩
      · obtain ⟨hdb, hc⟩ := processIXPRouters_trace h
        refine ⟨hdb, fun hb => ?_⟩
        rw [hc hb, List.map_map]
        rfl
  · intro db x fetch now h
    unfold runAtomicPoll
    rw [h]

def c3Ixp : IXPRec :=
  { id := 1, peeringdb_ixlan := some 10, local_asn := 64500,
    check_bgp_session_states := true, bgp_session_states_update := none }

def c3Session21 : IXPSession :=
  { id := 21, autonomous_system := 65001, ip_address := .v4 21, ixp_connection := 3,
    bgp_state := some "idle", received_prefix_count := 0,
    advertised_prefix_count := 0, last_established_state := none }

def c3Session22 : IXPSession :=
  { id := 22, autonomous_system := 65002, ip_address := .v4 22, ixp_connection := 3,
    bgp_state := some "idle", received_prefix_count := 0,
    advertised_prefix_count := 0, last_established_state := none }

def c3DB : DB :=
  { c1EmptyDB with
    connections := [{ id := 3, internet_exchange_point := 1, router := some 2 }],
    ixps := [c3Ixp],
    ixpSessions := [c3Session21, c3Session22] }

/-- Router 2 reports neighbors in two VRFs. -/
def c3Fetch (r : Nat) : RawDetail :=
  if r = 2 then
    [("vrf1", [(65001, [{ remote_address := .v4 21, connection_state := "Established",
                          received_prefix_count := some 5,
                          advertised_prefix_count := some 1 }])]),
     ("vrf2", [(65002, [{ remote_address := .v4 22, connection_state := "Established",
                          received_prefix_count := some 6,
                          advertised_prefix_count := some 2 }])])]
  else []

def c3Session21After : IXPSession :=
  { c3Session21 with
    bgp_state := some "established", received_prefix_count := 5,
    advertised_prefix_count := 1, last_established_state := some 4 }

def c3Session22After : IXPSession :=
  { c3Session22 with
    bgp_state := some "established", received_prefix_count := 6,
    advertised_prefix_count := 2, last_established_state := some 4 }

def c3Evs : List Event :=
  [.ixpWrite c3Session21After, .ixpTs 1 4, .ixpWrite c3Session22After, .ixpTs 1 4]

def c3DBAfter : DB :=
  { c3DB with
    ixpSessions := [c3Session21After, c3Session22After],
    ixps := [{ c3Ixp with bgp_session_states_update := some 4 }] }

/-- C3 counterexample: in a successful IXP poll cycle over one router
whose detail map has two VRFs, the scope's last-poll timestamp is written
twice, and the second VRF's session write happens after the first
timestamp write - so the timestamp is neither written exactly once nor
written as the final step after all session updates, refuting the claim
for the `InternetExchange` flavour. -/
theorem c3_timestamp_written_per_vrf_counterexample :
    InternetExchangePoll c3DB c3Ixp c3Fetch 4 = .ok (c3DBAfter, c3Evs, true) ∧
    c3Evs.countP Event.isIxpTs = 2 ∧
    c3Evs.get? 1 = some (.ixpTs 1 4) ∧
    c3Evs.get? 2 = some (.ixpWrite c3Session22After) := by
  exact ⟨rfl, rfl, rfl, rfl⟩

def c3wGroup : BGPGroupRec :=
  { id := 1, check_bgp_session_states := true, bgp_session_states_update := none }

def c3wSession : DirectSession :=
  { id := 31, autonomous_system := 65001, ip_address := .v4 31, bgp_group := 1,
    router := 2, bgp_state := some "idle", received_prefix_count := 0,
    advertised_prefix_count := 0, last_established_state := none }

def c3wDB : DB :=
  { c1EmptyDB with bgpGroups := [c3wGroup], directSessions := [c3wSession] }

def c3wFetch (r : Nat) : RawDetail :=
  if r = 2 then
    [("default", [(65001, [{ remote_address := .v4 31, connection_state := "Established",
                             received_prefix_count := some 1,
                             advertised_prefix_count := some 1 }])])]
  else []

def c3wSessionAfter : DirectSession :=
  { c3wSession with
    bgp_state := some "established", received_prefix_count := 1,
    advertised_prefix_count := 1, last_established_state := some 6 }

def c3wEvs : List Event := [.directWrite c3wSessionAfter, .groupTs 1 6]

def c3wDBAfter : DB :=
  { c3wDB with
    directSessions := [c3wSessionAfter],
    bgpGroups := [{ c3wGroup with bgp_session_states_update := some 6 }] }

/-- C3 witness. -/
theorem c3_amended_witness :
    c3wDBAfter = applyEvents c3wDB c3wEvs ∧
    c3wEvs.countP Event.isGroupTs = 1 ∧
    c3wEvs.getLast? = some (.groupTs 1 6) := by
  obtain ⟨h1, h2⟩ :=
    c3_amended_transaction_shape.1 c3wDB c3wGroup c3wFetch 6 c3wDBAfter c3wEvs true rfl
  exact ⟨h1, h2 rfl⟩

/-! ### C5: the AS count returned by import_sessions -/

theorem processImportNeighbor_counts {conn : Nat} {allowed : List IXLanNetRec}
    {db : DB} {sn an : Nat} {s : BGPPeer} {db' : DB} {sn' an' : Nat}
    (h : processImportNeighbor conn allowed db sn an s = .ok (db', sn', an')) :
    sn' + an = an' + sn ∧
      db'.autonomousSystems.length + an ≤ db.autonomousSystems.length + an' := by
  unfold processImportNeighbor at h
  by_cases hv : (!isValidIp allowed s.ip_address) = true
  · rw [if_pos hv] at h
    cases h
    omega
  · rw [if_neg hv] at h
    rcases hf : db.ixpSessions.filter
        (fun t => decide (t.ixp_connection = conn ∧ t.ip_address = s.ip_address)) with
      _ | ⟨t1, _ | ⟨t2, ts⟩⟩
    · rw [hf] at h
      rcases hcr : createFromPeeringdb db s.remote_asn with ⟨oa, db1⟩
      rcases oa with _ | a <;> rw [hcr] at h <;> cases h <;>
        unfold createFromPeeringdb at hcr
      · split at hcr
        · cases hcr
          omega
        · split at hcr <;> cases hcr
      · split at hcr
        · cases hcr
        · split at hcr
          · cases hcr
            dsimp only
            omega
          · cases hcr
            dsimp only
            simp only [List.length_append, List.length_cons, List.length_nil]
            omega
    · rw [hf] at h
      cases h
      omega
    · rw [hf] at h
      cases h

theorem importLoop_counts {conn : Nat} {allowed : List IXLanNetRec}
    {L : List BGPPeer} {db : DB} {sn an : Nat} {db' : DB} {sn' an' : Nat}
    (h : importLoop conn allowed db sn an L = .ok (db', sn', an')) :
    sn' + an = an' + sn ∧
      db'.autonomousSystems.length + an ≤ db.autonomousSystems.length + an' := by
  induction L generalizing db sn an with
  | nil =>
    unfold importLoop at h
    cases h
    omega
  | cons s rest ih =>
    unfold importLoop at h
    split at h
    · cases h
    · rename_i db1 sn1 an1 hstep
      obtain ⟨h1, h2⟩ := processImportNeighbor_counts hstep
      obtain ⟨h3, h4⟩ := ih h
      omega

/-- C5 (amended): the second count returned by `import_sessions` is not
the number of newly created AS records - it is incremented exactly
whenever a session is created, i.e. whenever the neighbor's ASN resolves
to a (new or pre-existing) AS record, so it always equals the first
count, and the number of AS records actually created during the call is
only bounded above by it. -/
theorem c5_amended_as_count_equals_session_count :
    ∀ (db : DB) (x : IXPRec) (conn : Nat) (L : List BGPPeer) (db1 : DB) (c a : Nat),
      importSessions db x conn L = .ok (db1, c, a) →
      a = c ∧ db1.autonomousSystems.length ≤ db.autonomousSystems.length + a := by
  intro db x conn L db1 c a h
  unfold importSessions at h
  obtain ⟨h1, h2⟩ := importLoop_counts h
  omega

def c5AS : ASRecord :=
  { asn := 65001, name := "Existing AS", irr_as_set := none,
    ipv6_max_prefixes := 0, ipv4_max_prefixes := 0 }

def c5Network : NetworkRec :=
  { asn := 65001, name := "Existing AS", irr_as_set := none,
    info_prefixes6 := 0, info_prefixes4 := 0 }

def c5Ixp : IXPRec :=
  { id := 1, peeringdb_ixlan := some 10, local_asn := 64500,
    check_bgp_session_states := true, bgp_session_states_update := none }

def c5DB : DB :=
  { c1EmptyDB with
    autonomousSystems := [c5AS],
    networks := [c5Network],
    ixlanNets := [{ ixlan := 10, net := { addr := .v4 0, maskLen := 24 } }] }

def c5Neighbors : List BGPPeer := [{ ip_address := .v4 5, remote_asn := 65001 }]

def c5CreatedSession : IXPSession :=
  { id := 1, autonomous_system := 65001, ip_address := .v4 5, ixp_connection := 3,
    bgp_state := none, received_prefix_count := 0, advertised_prefix_count := 0,
    last_established_state := none }

def c5DBAfter : DB :=
  { c5DB with ixpSessions := [c5CreatedSession] }

/-- C5 counterexample: importing one neighbor whose ASN already has a
local AS record returns a second count of 1 although zero new
AutonomousSystem records were created during the call - the claimed
"number of distinct newly created AS records" fails on the code. -/
theorem c5_existing_as_counted_counterexample :
    importSessions c5DB c5Ixp 3 c5Neighbors = .ok (c5DBAfter, 1, 1) ∧
    c5DBAfter.autonomousSystems = c5DB.autonomousSystems ∧
    c5DB.autonomousSystems = [c5AS] := by
  exact ⟨rfl, rfl, rfl⟩

/-- C5 witness. -/
theorem c5_amended_witness :
    (1 : Nat) = 1 ∧
      c5DBAfter.autonomousSystems.length ≤ c5DB.autonomousSystems.length + 1 :=
  c5_amended_as_count_equals_session_count c5DB c5Ixp 3 c5Neighbors c5DBAfter 1 1 rfl

/-! ### C7: the neighbor normalizer -/

theorem strMem_eq_true_iff (s : String) (l : List String) :
    strMem s l = true ↔ s ∈ l := by
  induction l with
  | nil => simp [strMem]
  | cons t ts ih =>
    by_cases hts : t = s
    · simp [strMem, hts]
    · simp [strMem, hts, ih, Ne.symm hts]

theorem processPeer_length (acc : List BGPPeer) (e : String × PeerDetail) :
    (processPeer acc e).length ≤ acc.length + 1 := by
  unfold processPeer
  split
  · omega
  · split
    · omega
    · split <;> simp

theorem foldPeers_length (ps : List (String × PeerDetail)) :
    ∀ acc : List BGPPeer,
      (ps.foldl processPeer acc).length ≤ acc.length + ps.length := by
  induction ps with
  | nil => intro acc; simp
  | cons e ps ih =>
    intro acc
    have h1 := ih (processPeer acc e)
    have h2 := processPeer_length acc e
    simp only [List.foldl_cons, List.length_cons]
    omega

theorem foldVrfs_length (d : List (String × List (String × PeerDetail))) :
    ∀ acc : List BGPPeer,
      (d.foldl (fun acc vrf => vrf.2.foldl processPeer acc) acc).length ≤
        acc.length + totalPeerEntries d := by
  induction d with
  | nil => intro acc; simp [totalPeerEntries]
  | cons vrf d ih =>
    intro acc
    have h1 := ih (vrf.2.foldl processPeer acc)
    have h2 := foldPeers_length vrf.2 acc
    simp only [List.foldl_cons, totalPeerEntries, List.map_cons, List.sum_cons] at *
    omega

theorem peerList_eq_fold (d : List (String × List (String × PeerDetail))) :
    napalmBgpNeighborsToPeerList d =
      d.foldl (fun acc vrf => vrf.2.foldl processPeer acc) [] := by
  cases d <;> rfl

theorem processPeer_mem {acc : List BGPPeer} {e : String × PeerDetail} {p : BGPPeer}
    (h : p ∈ processPeer acc e) :
    p ∈ acc ∨ (e.2.remote_as = some p.remote_asn ∧ parseIP e.1 = some p.ip_address) := by
  unfold processPeer at h
  split at h
  · exact Or.inl h
  · rename_i asn hasn
    split at h
    · exact Or.inl h
    · split at h
      · rename_i a ha
        rcases List.mem_append.mp h with hm | hm
        · exact Or.inl hm
        · simp only [List.mem_singleton] at hm
          subst hm
          exact Or.inr ⟨hasn, ha⟩
      · exact Or.inl h

theorem foldPeers_mem {ps : List (String × PeerDetail)} {p : BGPPeer} :
    ∀ {acc : List BGPPeer}, p ∈ ps.foldl processPeer acc →
      p ∈ acc ∨ ∃ e ∈ ps, e.2.remote_as = some p.remote_asn ∧
        parseIP e.1 = some p.ip_address := by
  induction ps with
  | nil => intro acc h; exact Or.inl h
  | cons e ps ih =>
    intro acc h
    rcases ih h with h1 | ⟨e', he', h2⟩
    · rcases processPeer_mem h1 with h2 | h2
      · exact Or.inl h2
      · exact Or.inr ⟨e, List.mem_cons_self e ps, h2⟩
    · exact Or.inr ⟨e', List.mem_cons_of_mem e he', h2⟩

theorem foldVrfs_mem {d : List (String × List (String × PeerDetail))} {p : BGPPeer} :
    ∀ {acc : List BGPPeer},
      p ∈ d.foldl (fun acc vrf => vrf.2.foldl processPeer acc) acc →
      p ∈ acc ∨ ∃ vrf ∈ d, ∃ e ∈ vrf.2, e.2.remote_as = some p.remote_asn ∧
        parseIP e.1 = some p.ip_address := by
  induction d with
  | nil => intro acc h; exact Or.inl h
  | cons vrf d ih =>
    intro acc h
    rcases ih h with h1 | ⟨v', hv', h2⟩
    · rcases foldPeers_mem h1 with h2 | ⟨e, he, h3⟩
      · exact Or.inl h2
      · exact Or.inr ⟨vrf, List.mem_cons_self vrf d, e, he, h3⟩
    · exact Or.inr ⟨v', List.mem_cons_of_mem vrf hv', h2⟩

/-- The pairwise-distinct invariant the duplicate check maintains: all
collected peers have distinct canonical strings. -/
def DistinctCanon (acc : List BGPPeer) : Prop :=
  acc.Pairwise (fun p q => ipToString p.ip_address ≠ ipToString q.ip_address)

theorem processPeer_pairwise {acc : List BGPPeer} {e : String × PeerDetail}
    (hcan : ∀ a, parseIP e.1 = some a → ipToString a = e.1)
    (h : DistinctCanon acc) : DistinctCanon (processPeer acc e) := by
  unfold processPeer
  split
  · exact h
  · split
    · exact h
    · rename_i hsm
      split
      · rename_i asn hasn a ha
        unfold DistinctCanon
        rw [List.pairwise_append]
        refine ⟨h, List.pairwise_singleton _ _, fun p hp q hq => ?_⟩
        simp only [List.mem_singleton] at hq
        subst hq
        simp only
        rw [hcan a ha]
        intro hcontra
        apply hsm
        rw [strMem_eq_true_iff]
        rw [← hcontra]
        exact List.mem_map_of_mem (fun i => ipToString i.ip_address) hp
      · exact h

theorem foldPeers_pairwise {ps : List (String × PeerDetail)} :
    ∀ {acc : List BGPPeer},
      (∀ e ∈ ps, ∀ a, parseIP e.1 = some a → ipToString a = e.1) →
      DistinctCanon acc → DistinctCanon (ps.foldl processPeer acc) := by
  induction ps with
  | nil => intro acc _ h; exact h
  | cons e ps ih =>
    intro acc hcan h
    exact ih (fun e' he' => hcan e' (List.mem_cons_of_mem e he'))
      (processPeer_pairwise (hcan e (List.mem_cons_self e ps)) h)

theorem foldVrfs_pairwise {d : List (String × List (String × PeerDetail))} :
    ∀ {acc : List BGPPeer},
      (∀ vrf ∈ d, ∀ e ∈ vrf.2, ∀ a, parseIP e.1 = some a → ipToString a = e.1) →
      DistinctCanon acc →
      DistinctCanon (d.foldl (fun acc vrf => vrf.2.foldl processPeer acc) acc) := by
  induction d with
  | nil => intro acc _ h; exact h
  | cons vrf d ih =>
    intro acc hcan h
    exact ih (fun v' hv' => hcan v' (List.mem_cons_of_mem vrf hv'))
      (foldPeers_pairwise (hcan vrf (List.mem_cons_self vrf d)) h)

theorem canonicalKeys_spec {d : List (String × List (String × PeerDetail))}
    (h : canonicalKeys d = true) :
    ∀ vrf ∈ d, ∀ e ∈ vrf.2, ∀ a, parseIP e.1 = some a → ipToString a = e.1 := by
  intro vrf hvrf e he a ha
  unfold canonicalKeys at h
  rw [List.all_eq_true] at h
  have h2 := h vrf hvrf
  rw [List.all_eq_true] at h2
  have h3 := h2 e he
  rw [ha] at h3
  exact of_decide_eq_true h3

theorem processPeer_parse_none {acc : List BGPPeer} {ip : String} {det : PeerDetail}
    (h : parseIP ip = none) : processPeer acc (ip, det) = acc := by
  unfold processPeer
  split
  · rfl
  · split
    · rfl
    · split
      · rename_i a ha
        rw [h] at ha
        cases ha
      · rfl

/-- C7 (amended): the normalizer's output length is at most the number
of peer entries; when every peer key that parses is written in canonical
form, no two output records share an IP address; every output record
comes from an input entry with a `remote_as` field whose IP string
parses to the record's address; an unparseable entry drops only itself
(the traversal continues unchanged); and empty input yields the empty
list.  Without the canonical-form proviso, two textual variants of the
same address (for example upper- and lower-case IPv6 spellings) can
each produce an output record, because the duplicate check compares the
raw key against the canonical strings of collected peers. -/
theorem c7_amended_normalizer :
    (∀ d, (napalmBgpNeighborsToPeerList d).length ≤ totalPeerEntries d) ∧
    (∀ d, canonicalKeys d = true →
      (napalmBgpNeighborsToPeerList d).Pairwise
        (fun p q => p.ip_address ≠ q.ip_address)) ∧
    (∀ d p, p ∈ napalmBgpNeighborsToPeerList d →
      ∃ vrf ∈ d, ∃ e ∈ vrf.2, e.2.remote_as = some p.remote_asn ∧
        parseIP e.1 = some p.ip_address) ∧
    (∀ d1 d2 v ps1 ps2 ip det, parseIP ip = none →
      napalmBgpNeighborsToPeerList (d1 ++ (v, ps1 ++ (ip, det) :: ps2) :: d2) =
        napalmBgpNeighborsToPeerList (d1 ++ (v, ps1 ++ ps2) :: d2)) ∧
    napalmBgpNeighborsToPeerList [] = [] := by
  refine ⟨?_, ?_, ?_, ?_, rfl⟩
  · intro d
    rw [peerList_eq_fold]
    have h := foldVrfs_length d []
    simpa using h
  · intro d h
    rw [peerList_eq_fold]
    have hp := foldVrfs_pairwise (canonicalKeys_spec h) (List.Pairwise.nil)
    exact hp.imp (fun hne heq => hne (congrArg ipToString heq))
  · intro d p hp
    rw [peerList_eq_fold] at hp
    rcases foldVrfs_mem hp with h | h
    · cases h
    · exact h
  · intro d1 d2 v ps1 ps2 ip det h
    simp only [peerList_eq_fold, List.foldl_append, List.foldl_cons]
    rw [processPeer_parse_none h]

def c7Input : List (String × List (String × PeerDetail)) :=
  [("default", [("2001:db8::1", ⟨some 65001⟩), ("2001:DB8::1", ⟨some 65002⟩)])]

/-- C7 counterexample: two spellings of the same IPv6 address (lower- and
upper-case hex) both pass the duplicate check - the raw key is compared
with the canonical `str()` of collected peers - so the output contains
two records sharing one IP address, refuting the claimed
no-two-records-share-an-IP property. -/
theorem c7_duplicate_address_counterexample :
    napalmBgpNeighborsToPeerList c7Input =
      [{ ip_address := .v6 (8193 * 2 ^ 112 + 3512 * 2 ^ 96 + 1), remote_asn := 65001 },
       { ip_address := .v6 (8193 * 2 ^ 112 + 3512 * 2 ^ 96 + 1), remote_asn := 65002 }] ∧
    ¬ ((napalmBgpNeighborsToPeerList c7Input).map (fun p => p.ip_address)).Nodup := by
  exact ⟨by decide, by decide⟩

def c7wInput : List (String × List (String × PeerDetail)) :=
  [("default", [("203.0.113.1", ⟨some 65001⟩), ("bad", ⟨some 65002⟩)])]

/-- C7 witness. -/
theorem c7_amended_witness :
    (napalmBgpNeighborsToPeerList c7wInput).length ≤ totalPeerEntries c7wInput ∧
    (napalmBgpNeighborsToPeerList c7wInput).Pairwise
      (fun p q => p.ip_address ≠ q.ip_address) ∧
    napalmBgpNeighborsToPeerList
        ([] ++ ("default", [] ++ ("bad", ⟨some 65002⟩) ::
          [("203.0.113.1", (⟨some 65001⟩ : PeerDetail))]) :: []) =
      napalmBgpNeighborsToPeerList
        ([] ++ ("default", [] ++ [("203.0.113.1", (⟨some 65001⟩ : PeerDetail))]) :: []) := by
  exact ⟨c7_amended_normalizer.1 c7wInput,
    c7_amended_normalizer.2.1 c7wInput (by decide),
    c7_amended_normalizer.2.2.2.1 [] [] "default" []
      [("203.0.113.1", ⟨some 65001⟩)] "bad" ⟨some 65002⟩ (by decide)⟩

/-! ### C8: import idempotence -/

/-- Number of stored sessions for (connection, IP) - the multiplicity the
`objects.get` existence check sees. -/
def numMatching (db : DB) (conn : Nat) (ip : IPAddr) : Nat :=
  (db.ixpSessions.filter
    (fun t => decide (t.ixp_connection = conn ∧ t.ip_address = ip))).length

/-- After a neighbor has been processed once: either its session exists
(uniquely), or it is unimportable (invalid prefix, or its ASN has no
cached PeeringDB network). -/
def ImportedState (conn : Nat) (allowed : List IXLanNetRec) (s : BGPPeer) (db : DB) : Prop :=
  isValidIp allowed s.ip_address = true →
    (numMatching db conn s.ip_address = 1 ∨
      (numMatching db conn s.ip_address = 0 ∧
        db.networks.find? (fun n => decide (n.asn = s.remote_asn)) = none))

theorem createFromPeeringdb_static {db : DB} {asn : Nat} {oa : Option ASRecord} {db1 : DB}
    (h : createFromPeeringdb db asn = (oa, db1)) :
    db1.networks = db.networks ∧ db1.ixlanNets = db.ixlanNets ∧
      db1.ixpSessions = db.ixpSessions := by
  unfold createFromPeeringdb at h
  split at h
  · cases h
    exact ⟨rfl, rfl, rfl⟩
  · split at h
    · cases h
      exact ⟨rfl, rfl, rfl⟩
    · cases h
      exact ⟨rfl, rfl, rfl⟩

theorem processImportNeighbor_static {conn : Nat} {allowed : List IXLanNetRec}
    {db : DB} {sn an : Nat} {s : BGPPeer} {db' : DB} {sn' an' : Nat}
    (h : processImportNeighbor conn allowed db sn an s = .ok (db', sn', an')) :
    db'.networks = db.networks ∧ db'.ixlanNets = db.ixlanNets ∧
      ∀ c i, numMatching db' c i = numMatching db c i ∨
        (numMatching db c i = 0 ∧ numMatching db' c i = 1) := by
  unfold processImportNeighbor at h
  by_cases hv : (!isValidIp allowed s.ip_address) = true
  · rw [if_pos hv] at h
    cases h
    exact ⟨rfl, rfl, fun c i => Or.inl rfl⟩
  · rw [if_neg hv] at h
    rcases hf : db.ixpSessions.filter
        (fun t => decide (t.ixp_connection = conn ∧ t.ip_address = s.ip_address)) with
      _ | ⟨t1, _ | ⟨t2, ts⟩⟩
    · rw [hf] at h
      rcases hcr : createFromPeeringdb db s.remote_asn with ⟨oa, db1⟩
      obtain ⟨hn, hx, hs⟩ := createFromPeeringdb_static hcr
      rcases oa with _ | a <;> rw [hcr] at h <;> cases h
      · exact ⟨hn, hx, fun c i => Or.inl (by unfold numMatching; rw [hs])⟩
      · refine ⟨hn, hx, fun c i => ?_⟩
        unfold numMatching
        dsimp only
        rw [hs, List.filter_append, List.length_append]
        by_cases hci : conn = c ∧ s.ip_address = i
        · right
          constructor
          · have : numMatching db c i = 0 := by
              unfold numMatching
              rw [← hci.1, ← hci.2, hf]
              rfl
            unfold numMatching at this
            exact this
          · have h0 : (db.ixpSessions.filter
                (fun t => decide (t.ixp_connection = c ∧ t.ip_address = i))).length = 0 := by
              rw [← hci.1, ← hci.2, hf]
              rfl
            rw [h0]
            simp [List.filter, hci.1, hci.2]
        · left
          have : (List.filter
              (fun t => decide (t.ixp_connection = c ∧ t.ip_address = i))
              [({ id := freshIXPSessionId db1, autonomous_system := a.asn,
                  ip_address := s.ip_address, ixp_connection := conn,
                  bgp_state := none, received_prefix_count := 0,
                  advertised_prefix_count := 0,
                  last_established_state := none } : IXPSession)]).length = 0 := by
            simp only [List.filter, List.length_nil]
            split
            · rename_i hdec
              rw [decide_eq_true_eq] at hdec
              exact absurd ⟨hdec.1, hdec.2⟩ hci
            · rfl
          omega
    · rw [hf] at h
      cases h
      exact ⟨rfl, rfl, fun c i => Or.inl rfl⟩
    · rw [hf] at h
      cases h

theorem processImportNeighbor_post {conn : Nat} {allowed : List IXLanNetRec}
    {db : DB} {sn an : Nat} {s : BGPPeer} {db' : DB} {sn' an' : Nat}
    (h : processImportNeighbor conn allowed db sn an s = .ok (db', sn', an')) :
    ImportedState conn allowed s db' := by
  intro hv
  unfold processImportNeighbor at h
  rw [if_neg (by simp [hv])] at h
  rcases hf : db.ixpSessions.filter
      (fun t => decide (t.ixp_connection = conn ∧ t.ip_address = s.ip_address)) with
    _ | ⟨t1, _ | ⟨t2, ts⟩⟩
  · rw [hf] at h
    rcases hcr : createFromPeeringdb db s.remote_asn with ⟨oa, db1⟩
    obtain ⟨hn, _, hs⟩ := createFromPeeringdb_static hcr
    rcases oa with _ | a <;> rw [hcr] at h <;> cases h
    · right
      constructor
      · unfold numMatching
        rw [hs, hf]
        rfl
      · rw [hn]
        unfold createFromPeeringdb at hcr
        split at hcr
        · rename_i hfind
          exact hfind
        · split at hcr <;> cases hcr
    · left
      unfold numMatching
      dsimp only
      rw [hs, List.filter_append, List.length_append, hf]
      simp [List.filter]
  · rw [hf] at h
    cases h
    left
    unfold numMatching
    rw [hf]
    rfl
  · rw [hf] at h
    cases h

theorem importedState_preserved {conn : Nat} {allowed : List IXLanNetRec}
    {s t : BGPPeer} {db : DB} {sn an : Nat} {db' : DB} {sn' an' : Nat}
    (hq : ImportedState conn allowed s db)
    (h : processImportNeighbor conn allowed db sn an t = .ok (db', sn', an')) :
    ImportedState conn allowed s db' := by
  intro hv
  obtain ⟨hn, _, hcount⟩ := processImportNeighbor_static h
  rcases hq hv with h1 | ⟨h0, hnet⟩
  · rcases hcount conn s.ip_address with hc | ⟨hc0, _⟩
    · exact Or.inl (hc.trans h1)
    · omega
  · rcases hcount conn s.ip_address with hc | ⟨_, hc1⟩
    · exact Or.inr ⟨hc.trans h0, by rw [hn]; exact hnet⟩
    · exact Or.inl hc1

theorem importLoop_preserves {conn : Nat} {allowed : List IXLanNetRec} {s : BGPPeer}
    {L : List BGPPeer} :
    ∀ {db : DB} {sn an : Nat} {db' : DB} {sn' an' : Nat},
      ImportedState conn allowed s db →
      importLoop conn allowed db sn an L = .ok (db', sn', an') →
      ImportedState conn allowed s db' := by
  induction L with
  | nil =>
    intro db sn an db' sn' an' hq h
    unfold importLoop at h
    cases h
    exact hq
  | cons t rest ih =>
    intro db sn an db' sn' an' hq h
    unfold importLoop at h
    split at h
    · cases h
    · rename_i db1 sn1 an1 hstep
      exact ih (importedState_preserved hq hstep) h

theorem importLoop_establishes {conn : Nat} {allowed : List IXLanNetRec}
    {L : List BGPPeer} :
    ∀ {db : DB} {sn an : Nat} {db' : DB} {sn' an' : Nat},
      importLoop conn allowed db sn an L = .ok (db', sn', an') →
      ∀ s ∈ L, ImportedState conn allowed s db' := by
  induction L with
  | nil => intro db sn an db' sn' an' h s hs; cases hs
  | cons t rest ih =>
    intro db sn an db' sn' an' h s hs
    unfold importLoop at h
    split at h
    · cases h
    · rename_i db1 sn1 an1 hstep
      rcases List.mem_cons.mp hs with hst | hsr
      · subst hst
        exact importLoop_preserves (processImportNeighbor_post hstep) h
      · exact ih h s hsr

theorem processImportNeighbor_skip {conn : Nat} {allowed : List IXLanNetRec}
    {db : DB} {sn an : Nat} {s : BGPPeer}
    (hq : ImportedState conn allowed s db) :
    processImportNeighbor conn allowed db sn an s = .ok (db, sn, an) := by
  unfold processImportNeighbor
  by_cases hv : isValidIp allowed s.ip_address = true
  · rw [if_neg (by simp [hv])]
    rcases hq hv with h1 | ⟨h0, hnet⟩
    · unfold numMatching at h1
      rcases List.length_eq_one.mp h1 with ⟨a, ha⟩
      rw [ha]
    · unfold numMatching at h0
      rw [List.length_eq_zero] at h0
      rw [h0]
      have : createFromPeeringdb db s.remote_asn = (none, db) := by
        unfold createFromPeeringdb
        rw [hnet]
      rw [this]
  · rw [if_pos (by simp [hv])]

theorem importLoop_skips {conn : Nat} {allowed : List IXLanNetRec} {L : List BGPPeer} :
    ∀ {db : DB} {sn an : Nat},
      (∀ s ∈ L, ImportedState conn allowed s db) →
      importLoop conn allowed db sn an L = .ok (db, sn, an) := by
  induction L with
  | nil => intro db sn an _; rfl
  | cons t rest ih =>
    intro db sn an hq
    unfold importLoop
    rw [processImportNeighbor_skip (hq t (List.mem_cons_self t rest))]
    exact ih (fun s hs => hq s (List.mem_cons_of_mem t hs))

theorem importLoop_static {conn : Nat} {allowed : List IXLanNetRec} {L : List BGPPeer} :
    ∀ {db : DB} {sn an : Nat} {db' : DB} {sn' an' : Nat},
      importLoop conn allowed db sn an L = .ok (db', sn', an') →
      db'.networks = db.networks ∧ db'.ixlanNets = db.ixlanNets := by
  induction L with
  | nil =>
    intro db sn an db' sn' an' h
    unfold importLoop at h
    cases h
    exact ⟨rfl, rfl⟩
  | cons t rest ih =>
    intro db sn an db' sn' an' h
    unfold importLoop at h
    split at h
    · cases h
    · rename_i db1 sn1 an1 hstep
      obtain ⟨h1, h2, _⟩ := processImportNeighbor_static hstep
      obtain ⟨h3, h4⟩ := ih h
      exact ⟨h3.trans h1, h4.trans h2⟩

/-- C8: importing is idempotent per connection - after a first
successful run over a live-neighbor set, re-running the same call on the
resulting database creates nothing and returns the counts (0, 0):
every importable neighbor now has its (connection, IP) session and is
skipped before AS resolution, invalid neighbors are still rejected by
the prefix check, and unresolvable ASNs still resolve to nothing. -/
theorem c8_import_sessions_idempotent :
    ∀ (db : DB) (x : IXPRec) (conn : Nat) (L : List BGPPeer) (db1 : DB) (c a : Nat),
      importSessions db x conn L = .ok (db1, c, a) →
      importSessions db1 x conn L = .ok (db1, 0, 0) := by
  intro db x conn L db1 c a h
  unfold importSessions at *
  have hall : getIXPNets db1 x = getIXPNets db x := by
    obtain ⟨_, hx⟩ := importLoop_static h
    unfold getIXPNets
    cases x.peeringdb_ixlan
    · rfl
    · rw [hx]
  rw [hall]
  exact importLoop_skips (importLoop_establishes h)

def c8Ixp : IXPRec :=
  { id := 1, peeringdb_ixlan := some 10, local_asn := 64500,
    check_bgp_session_states := true, bgp_session_states_update := none }

def c8DB : DB :=
  { c1EmptyDB with
    networks := [{ asn := 65001, name := "Peer", irr_as_set := none,
                   info_prefixes6 := 10, info_prefixes4 := 20 }],
    ixlanNets := [{ ixlan := 10, net := { addr := .v4 0, maskLen := 24 } }] }

def c8Neighbors : List BGPPeer :=
  [{ ip_address := .v4 5, remote_asn := 65001 },
   { ip_address := .v4 300, remote_asn := 65002 },
   { ip_address := .v4 9, remote_asn := 65999 }]

def c8DBAfter : DB :=
  { c8DB with
    autonomousSystems := [{ asn := 65001, name := "Peer", irr_as_set := none,
                            ipv6_max_prefixes := 10, ipv4_max_prefixes := 20 }],
    ixpSessions := [{ id := 1, autonomous_system := 65001, ip_address := .v4 5,
                      ixp_connection := 3, bgp_state := none,
                      received_prefix_count := 0, advertised_prefix_count := 0,
                      last_established_state := none }] }

/-- C8 witness: one importable neighbor, one neighbor outside every
prefix, one neighbor with an unresolvable ASN; the first run imports one
session and one AS, the re-run returns (0, 0) on the unchanged state. -/
theorem c8_import_idempotent_witness :
    importSessions c8DBAfter c8Ixp 3 c8Neighbors = .ok (c8DBAfter, 0, 0) :=
  c8_import_sessions_idempotent c8DB c8Ixp 3 c8Neighbors c8DBAfter 1 1 rfl

/-! ### C9: the abandonment classifier -/

/-- C9: a session is classified abandoned exactly when all five guard
conditions hold - the connection's IXP is linked to PeeringDB, that IXP
has state checking enabled, the session's AS has a cached PeeringDB
network, no PeeringDB member record matches the session's IP, and the
current BGP state is idle or active.  In particular an established
session is never abandoned, and a session whose AS has no cached network
record is never abandoned. -/
theorem c9_is_abandoned_iff :
    ∀ (db : DB) (s : IXPSession) (c : ConnectionRec) (x : IXPRec),
      db.connections.find? (fun c' => decide (c'.id = s.ixp_connection)) = some c →
      db.ixps.find? (fun x' => decide (x'.id = c.internet_exchange_point)) = some x →
      (isAbandoned db s = .ok true ↔
        (x.peeringdb_ixlan.isSome = true ∧
         x.check_bgp_session_states = true ∧
         (peeringdbNetwork db s.autonomous_system).isSome = true ∧
         pdbMemberMatches db s = [] ∧
         (s.bgp_state = some "idle" ∨ s.bgp_state = some "active"))) ∧
      (s.bgp_state = some "established" → isAbandoned db s ≠ .ok true) ∧
      (peeringdbNetwork db s.autonomous_system = none → isAbandoned db s ≠ .ok true) := by
  intro db s c x hfc hfx
  have hlink : connectionLinkedToPeeringdb db c = x.peeringdb_ixlan.isSome := by
    unfold connectionLinkedToPeeringdb
    rw [hfx]
  have hmain : isAbandoned db s = .ok true ↔
      (x.peeringdb_ixlan.isSome = true ∧
       x.check_bgp_session_states = true ∧
       (peeringdbNetwork db s.autonomous_system).isSome = true ∧
       pdbMemberMatches db s = [] ∧
       (s.bgp_state = some "idle" ∨ s.bgp_state = some "active")) := by
    unfold isAbandoned
    rw [hfc]
    simp only []
    rw [hfx]
    simp only []
    rw [hlink]
    unfold existsInPeeringdb
    rcases hm : pdbMemberMatches db s with _ | ⟨m1, _ | ⟨m2, ms⟩⟩ <;>
      by_cases h1 : x.peeringdb_ixlan.isSome <;>
      by_cases h2 : x.check_bgp_session_states <;>
      by_cases h3 : (peeringdbNetwork db s.autonomous_system).isNone <;>
      by_cases h4 : s.bgp_state = some "idle" ∨ s.bgp_state = some "active" <;>
        simp_all [Option.isNone_iff_eq_none, Option.isSome_iff_ne_none]
  refine ⟨hmain, fun hest hcontra => ?_, fun hnone hcontra => ?_⟩
  · rcases (hmain.mp hcontra).2.2.2.2 with h | h <;> rw [hest] at h <;>
      exact absurd h (by decide)
  · have := (hmain.mp hcontra).2.2.1
    rw [hnone] at this
    cases this

def c9Conn : ConnectionRec := { id := 7, internet_exchange_point := 1, router := some 2 }

def c9Ixp : IXPRec :=
  { id := 1, peeringdb_ixlan := some 10, local_asn := 64500,
    check_bgp_session_states := true, bgp_session_states_update := none }

def c9Session : IXPSession :=
  { id := 5, autonomous_system := 65010, ip_address := .v4 100, ixp_connection := 7,
    bgp_state := some "idle", received_prefix_count := 0,
    advertised_prefix_count := 0, last_established_state := none }

def c9DB : DB :=
  { c1EmptyDB with
    connections := [c9Conn],
    ixps := [c9Ixp],
    networks := [{ asn := 65010, name := "Peer", irr_as_set := none,
                   info_prefixes6 := 0, info_prefixes4 := 0 }] }

/-- C9 witness: all five conditions hold, so the session is abandoned. -/
theorem c9_is_abandoned_witness : isAbandoned c9DB c9Session = .ok true :=
  ((c9_is_abandoned_iff c9DB c9Session c9Conn c9Ixp rfl rfl).1).mpr
    ⟨by decide, by decide, by decide, by decide, Or.inl rfl⟩

/-! ### C10: the available-peers query -/

theorem bmem_eq_true_iff {α} [DecidableEq α] (a : α) (l : List α) :
    bmem a l = true ↔ a ∈ l := by
  induction l with
  | nil => simp [bmem]
  | cons x xs ih =>
    by_cases hx : x = a
    · simp [bmem, hx]
    · simp [bmem, hx, ih, Ne.symm hx]

theorem mem_insertByAsn {a n : NetworkIXLanRec} {l : List NetworkIXLanRec} :
    a ∈ insertByAsn n l ↔ a = n ∨ a ∈ l := by
  induction l with
  | nil => simp [insertByAsn]
  | cons m ms ih =>
    unfold insertByAsn
    split
    · simp
    · rw [List.mem_cons, ih]
      simp
      tauto

theorem mem_sortByAsn {a : NetworkIXLanRec} {l : List NetworkIXLanRec} :
    a ∈ sortByAsn l ↔ a ∈ l := by
  induction l with
  | nil => simp [sortByAsn]
  | cons x xs ih =>
    unfold sortByAsn at *
    simp only [List.foldr_cons, mem_insertByAsn, ih, List.mem_cons]

theorem sorted_insertByAsn {n : NetworkIXLanRec} {l : List NetworkIXLanRec}
    (h : l.Pairwise (fun a b => a.asn ≤ b.asn)) :
    (insertByAsn n l).Pairwise (fun a b => a.asn ≤ b.asn) := by
  induction l with
  | nil => simp [insertByAsn]
  | cons m ms ih =>
    rw [List.pairwise_cons] at h
    unfold insertByAsn
    split
    · rename_i hle
      rw [List.pairwise_cons]
      refine ⟨fun b hb => ?_, List.pairwise_cons.mpr h⟩
      rcases List.mem_cons.mp hb with hb | hb
      · subst hb
        exact hle
      · exact le_trans hle (h.1 b hb)
    · rename_i hgt
      rw [List.pairwise_cons]
      refine ⟨fun b hb => ?_, ih h.2⟩
      rcases mem_insertByAsn.mp hb with hb | hb
      · subst hb
        omega
      · exact h.1 b hb

theorem sorted_sortByAsn (l : List NetworkIXLanRec) :
    (sortByAsn l).Pairwise (fun a b => a.asn ≤ b.asn) := by
  induction l with
  | nil => simp [sortByAsn]
  | cons x xs ih => exact sorted_insertByAsn ih

theorem sqlIn_eq_f_iff (x : Option IPAddr) (l : List IPAddr) :
    sqlIn x l = .f ↔ ((x = none ∧ l = []) ∨ (∃ v, x = some v ∧ v ∉ l)) := by
  cases x with
  | none =>
    unfold sqlIn
    by_cases hl : l.isEmpty <;> simp_all [List.isEmpty_iff]
  | some v =>
    unfold sqlIn
    by_cases hm : bmem v l = true
    · simp_all [bmem_eq_true_iff]
    · rw [Bool.not_eq_true] at hm
      simp only [hm]
      have : v ∉ l := fun hc => by
        rw [← bmem_eq_true_iff v l] at hc
        simp_all
      simp_all

theorem sqlOrNot_eq_t_iff (a b : SqlB) :
    sqlOr (sqlNot a) (sqlNot b) = .t ↔ (a = .f ∨ b = .f) := by
  cases a <;> cases b <;> simp [sqlOr, sqlNot]

/-- C10 (amended): with no PeeringDB link the query returns nothing;
otherwise it returns, ordered by ASN ascending, exactly the member
records of the linked exchange whose ASN differs from the local AS and
for which - under the SQL null semantics of the ORM's `~Q(...__in=...)`
filter - the v6 disjunct or the v4 disjunct is definitely true: an
address of that family is present and not among the existing sessions'
addresses of that family, or the member lacks that address while no
session of that family exists (an empty `__in` list compiles to an
always-false condition).  A member lacking an address in one family
while its other-family address is already peered is NOT returned, the
null comparison being unknown rather than true. -/
theorem c10_amended_available_peers :
    (∀ (db : DB) (x : IXPRec), x.peeringdb_ixlan = none →
      getAvailablePeers db x = []) ∧
    (∀ (db : DB) (x : IXPRec) (ixl : Nat), x.peeringdb_ixlan = some ixl →
      (getAvailablePeers db x).Pairwise (fun a b => a.asn ≤ b.asn) ∧
      (∀ n, n ∈ getAvailablePeers db x ↔
        (n ∈ db.netixlans ∧ n.asn ≠ x.local_asn ∧ n.ixlan = ixl ∧
          (((n.ipaddr6 = none ∧ existingV6 db x.id = []) ∨
            (∃ v, n.ipaddr6 = some v ∧ v ∉ existingV6 db x.id)) ∨
           ((n.ipaddr4 = none ∧ existingV4 db x.id = []) ∨
            (∃ v, n.ipaddr4 = some v ∧ v ∉ existingV4 db x.id)))))) := by
  constructor
  · intro db x hx
    unfold getAvailablePeers
    rw [hx]
  · intro db x ixl hx
    constructor
    · unfold getAvailablePeers
      rw [hx]
      exact sorted_sortByAsn _
    · intro n
      unfold getAvailablePeers
      rw [hx]
      rw [mem_sortByAsn, List.mem_filter]
      unfold availablePeerRow
      simp only [Bool.and_eq_true, decide_eq_true_eq, sqlOrNot_eq_t_iff, sqlIn_eq_f_iff,
        and_assoc]

/-- The member predicate written from the claim: ASN differs from the
local AS and the v6 address is not among existing v6 session IPs OR the
v4 address is not among existing v4 session IPs, a missing address being
vacuously "not among". -/
def specAvailableMember (db : DB) (x : IXPRec) (ixl : Nat) (n : NetworkIXLanRec) : Prop :=
  n.asn ≠ x.local_asn ∧ n.ixlan = ixl ∧
    ((∀ v, n.ipaddr6 = some v → v ∉ existingV6 db x.id) ∨
     (∀ v, n.ipaddr4 = some v → v ∉ existingV4 db x.id))

def c10Ixp : IXPRec :=
  { id := 1, peeringdb_ixlan := some 10, local_asn := 64500,
    check_bgp_session_states := true, bgp_session_states_update := none }

/-- A member with no v6 address whose v4 address is already peered. -/
def c10Member : NetworkIXLanRec :=
  { asn := 65001, ixlan := 10, ipaddr6 := none, ipaddr4 := some (.v4 44) }

def c10DB : DB :=
  { c1EmptyDB with
    connections := [{ id := 3, internet_exchange_point := 1, router := some 2 }],
    ixpSessions :=
      [{ id := 11, autonomous_system := 65001, ip_address := .v4 44,
         ixp_connection := 3, bgp_state := none, received_prefix_count := 0,
         advertised_prefix_count := 0, last_established_state := none },
       { id := 12, autonomous_system := 65002, ip_address := .v6 66,
         ixp_connection := 3, bgp_state := none, received_prefix_count := 0,
         advertised_prefix_count := 0, last_established_state := none }],
    netixlans := [c10Member] }

/-- C10 counterexample: the member has no v6 address, so per the claim
its "v6 address is not among existing sessions' v6 IPs" holds vacuously
and the member should appear; but the ORM's `~Q(ipaddr6__in=[...])`
compares NULL against a non-empty list, which is unknown in SQL, and the
v4 disjunct is false, so the code returns no rows. -/
theorem c10_null_address_counterexample :
    c10Ixp.peeringdb_ixlan = some 10 ∧
    c10Member ∈ c10DB.netixlans ∧
    specAvailableMember c10DB c10Ixp 10 c10Member ∧
    getAvailablePeers c10DB c10Ixp = [] := by
  refine ⟨rfl, by decide, ⟨by decide, rfl, Or.inl fun v hv => ?_⟩, rfl⟩
  cases hv

def c10wIxp : IXPRec :=
  { id := 1, peeringdb_ixlan := some 10, local_asn := 64500,
    check_bgp_session_states := true, bgp_session_states_update := none }

/-- A member with both addresses, only its v4 already peered. -/
def c10wMember : NetworkIXLanRec :=
  { asn := 65001, ixlan := 10, ipaddr6 := some (.v6 9), ipaddr4 := some (.v4 44) }

def c10wDB : DB :=
  { c1EmptyDB with
    connections := [{ id := 3, internet_exchange_point := 1, router := some 2 }],
    ixpSessions :=
      [{ id := 11, autonomous_system := 65001, ip_address := .v4 44,
         ixp_connection := 3, bgp_state := none, received_prefix_count := 0,
         advertised_prefix_count := 0, last_established_state := none }],
    netixlans := [c10wMember] }

/-- C10 witness. -/
theorem c10_amended_witness :
    (getAvailablePeers c10wDB c10wIxp).Pairwise (fun a b => a.asn ≤ b.asn) ∧
    (c10wMember ∈ getAvailablePeers c10wDB c10wIxp ↔
      (c10wMember ∈ c10wDB.netixlans ∧ c10wMember.asn ≠ c10wIxp.local_asn ∧
        c10wMember.ixlan = 10 ∧
        (((c10wMember.ipaddr6 = none ∧ existingV6 c10wDB c10wIxp.id = []) ∨
          (∃ v, c10wMember.ipaddr6 = some v ∧ v ∉ existingV6 c10wDB c10wIxp.id)) ∨
         ((c10wMember.ipaddr4 = none ∧ existingV4 c10wDB c10wIxp.id = []) ∨
          (∃ v, c10wMember.ipaddr4 = some v ∧ v ∉ existingV4 c10wDB c10wIxp.id))))) := by
  obtain ⟨h1, h2⟩ := c10_amended_available_peers.2 c10wDB c10wIxp 10 rfl
  exact ⟨h1, h2 c10wMember⟩
